import Mathlib

/-!
Shallow embedding of the `rustyboy` Game Boy emulator core
(files `src/register.rs`, `src/cpu.rs`, `src/bus.rs`, `src/timer.rs`,
`src/serial.rs`, `src/ppu.rs`, `src/cartridge.rs`) together with proofs
about the embedded definitions.

Conventions:
  * machine integers (`u8`, `u16`) are embedded as `Nat`; wrapping
    arithmetic is made explicit with `% 256` / `% 65536`;
  * byte arrays (`Vec<u8>`) are embedded as total functions `Nat → Nat`
    indexed exactly as the source indexes the vector;
  * `&mut self` methods become state-passing functions;
  * Rust `bool` is `Bool`; `Option<u16>` is `Option Nat`.
-/

namespace Rustyboy

/-- `register.rs`: the flag enumeration.  `register.rs` names the 0x40
flag `Operation` while `cpu.rs` (and its unit tests) refer to the same
bit as `Negative`; the `From<Flags> for u8` impl fixes the bit masks
Zero = 0x80, Negative/Operation = 0x40, HalfCarry = 0x20, Carry = 0x10,
and the `cpu.rs` unit tests (`test_correct_setting_of_flag`) confirm
`set_flag`/`unset_flag` operate on those masks. -/
inductive Flags where
  | Zero
  | Negative
  | HalfCarry
  | Carry
  | NoFlag
  deriving DecidableEq

/-- `impl From<Flags> for u8` in `register.rs`: the bit mask of a flag. -/
def flagBit : Flags → Nat
  | Flags.Zero => 0x80
  | Flags.Negative => 0x40
  | Flags.HalfCarry => 0x20
  | Flags.Carry => 0x10
  | Flags.NoFlag => 0x00

/-- Bit position of each flag (2 ^ flagIdx = flagBit for the four real flags). -/
def flagIdx : Flags → Nat
  | Flags.Zero => 7
  | Flags.Negative => 6
  | Flags.HalfCarry => 5
  | Flags.Carry => 4
  | Flags.NoFlag => 0

/-- `Cpu::set_flag`: `f |= mask; f &= 0xF0`. -/
def set_flag (f : Nat) (flag : Flags) : Nat :=
  (f ||| flagBit flag) &&& 0xF0

/-- `Cpu::unset_flag`: `f &= !mask` (u8 complement). -/
def unset_flag (f : Nat) (flag : Flags) : Nat :=
  f &&& (0xFF ^^^ flagBit flag)

/-- `Cpu::flag_is_active`: `f & mask == mask`. -/
def flag_is_active (f : Nat) (flag : Flags) : Bool :=
  f &&& flagBit flag == flagBit flag

/-- `Cpu::set_flag_on_if`. -/
def set_flag_on_if (f : Nat) (flag : Flags) (condition : Bool) : Nat :=
  if condition then set_flag f flag else unset_flag f flag

/-- u8 wrapping subtraction (`u8::wrapping_sub`) for byte-sized operands. -/
def wsub8 (x y : Nat) : Nat := (x + 256 - y % 256) % 256

/-- `Cpu::add_a` (cpu.rs lines 147-154), acting on `(a, f)`. -/
def add_a (a value f : Nat) : Nat × Nat :=
  let result := (a + value) % 256
  let f := unset_flag f Flags.Negative
  let f := set_flag_on_if f Flags.Zero (result == 0)
  let f := set_flag_on_if f Flags.HalfCarry (decide ((a &&& 0xF) + (value &&& 0xF) > 0xF))
  let f := set_flag_on_if f Flags.Carry (decide (a + value > 0xFF))
  (result, f)

/-- `Cpu::adc_a_reg`. -/
def adc_a_reg (a value f : Nat) : Nat × Nat :=
  let carry := if flag_is_active f Flags.Carry then 1 else 0
  let result := (a + value + carry) % 256
  let f := unset_flag f Flags.Negative
  let f := set_flag_on_if f Flags.Zero (result == 0)
  let f := set_flag_on_if f Flags.HalfCarry (decide ((a &&& 0xF) + (value &&& 0xF) + carry > 0xF))
  let f := set_flag_on_if f Flags.Carry (decide (a + value + carry > 0xFF))
  (result, f)

/-- `Cpu::sub` (cpu.rs lines 174-181). -/
def sub (a value f : Nat) : Nat × Nat :=
  let result := wsub8 a value
  let f := set_flag f Flags.Negative
  let f := set_flag_on_if f Flags.Zero (result == 0)
  let f := set_flag_on_if f Flags.HalfCarry (decide ((a &&& 0xF) < (value &&& 0xF)))
  let f := set_flag_on_if f Flags.Carry (decide (a < value))
  (result, f)

/-- `Cpu::sbc_a_reg`. -/
def sbc_a_reg (a value f : Nat) : Nat × Nat :=
  let carry := if flag_is_active f Flags.Carry then 1 else 0
  let result := wsub8 (wsub8 a value) carry
  let f := set_flag f Flags.Negative
  let f := set_flag_on_if f Flags.Zero (result == 0)
  let f := set_flag_on_if f Flags.HalfCarry (decide ((a &&& 0xF) < (value &&& 0xF) + carry))
  let f := set_flag_on_if f Flags.Carry (decide (a < value + carry))
  (result, f)

/-- `Cpu::and_a_helper`. -/
def and_a_helper (a value f : Nat) : Nat × Nat :=
  let result := a &&& value
  let f := set_flag f Flags.HalfCarry
  let f := unset_flag f Flags.Negative
  let f := unset_flag f Flags.Carry
  let f := set_flag_on_if f Flags.Zero (result == 0)
  (result, f)

/-- `Cpu::xor_a_helper` (`reset_flags` sets f to 0). -/
def xor_a_helper (a value f : Nat) : Nat × Nat :=
  let result := a ^^^ value
  let f := (0 : Nat)
  let f := set_flag_on_if f Flags.Zero (result == 0)
  (result, f)

/-- `Cpu::or_a_helper`. -/
def or_a_helper (a value f : Nat) : Nat × Nat :=
  let result := a ||| value
  let f := (0 : Nat)
  let f := set_flag_on_if f Flags.Zero (result == 0)
  (result, f)

/-- `Cpu::cp_a_helper`: compare, `a` is not written; returns the flag byte. -/
def cp_a_helper (a value f : Nat) : Nat :=
  let result := wsub8 a value
  let f := set_flag f Flags.Negative
  let f := set_flag_on_if f Flags.Zero (result == 0)
  let f := set_flag_on_if f Flags.HalfCarry (decide ((a &&& 0xF) < (value &&& 0xF)))
  let f := set_flag_on_if f Flags.Carry (decide (a < value))
  f

/-- `Cpu::inc_reg` (cpu.rs lines 98-105); Carry is not touched. -/
def inc_reg (register f : Nat) : Nat × Nat :=
  let result := (register + 1) % 256
  let f := set_flag_on_if f Flags.Zero (result == 0)
  let f := unset_flag f Flags.Negative
  let f := set_flag_on_if f Flags.HalfCarry (decide ((register &&& 0xF) + 1 > 0xF))
  (result, f)

/-- `Cpu::dec_reg` (cpu.rs lines 108-115); Carry is not touched. -/
def dec_reg (register f : Nat) : Nat × Nat :=
  let result := wsub8 register 1
  let f := set_flag_on_if f Flags.Zero (result == 0)
  let f := set_flag f Flags.Negative
  let f := set_flag_on_if f Flags.HalfCarry ((register &&& 0xF) == 0)
  (result, f)

/-! ### Register file (`register.rs`) -/

/-- `register.rs`: the register file. -/
structure Register where
  a : Nat
  f : Nat
  b : Nat
  c : Nat
  d : Nat
  e : Nat
  h : Nat
  l : Nat
  sp : Nat
  pc : Nat

/-- `Register::new()` post-boot values (`f = u8::from(Flags::Zero) = 0x80`). -/
def Register.new : Register :=
  { a := 0x01, f := 0x80, b := 0x00, c := 0x13, d := 0x00, e := 0xD8,
    h := 0x01, l := 0x4D, sp := 0xFFFE, pc := 0x0100 }

def Register.get_bc (r : Register) : Nat := r.b <<< 8 ||| r.c

def Register.set_bc (r : Register) (value : Nat) : Register :=
  { r with b := (value &&& 0xFF00) >>> 8, c := value &&& 0xFF }

def Register.get_hl (r : Register) : Nat := r.h <<< 8 ||| r.l

def Register.set_hl (r : Register) (value : Nat) : Register :=
  { r with h := (value &&& 0xFF00) >>> 8, l := value &&& 0xFF }

def Register.get_de (r : Register) : Nat := r.d <<< 8 ||| r.e

def Register.set_de (r : Register) (value : Nat) : Register :=
  { r with d := (value &&& 0xFF00) >>> 8, e := value &&& 0xFF }

def Register.get_af (r : Register) : Nat := r.a <<< 8 ||| r.f

/-- `Register::set_af` (register.rs lines 86-89): note the low byte is
stored verbatim (`f = value & 0xFF`), with no `0xFFF0` masking. -/
def Register.set_af (r : Register) (value : Nat) : Register :=
  { r with a := (value &&& 0xFF00) >>> 8, f := value &&& 0xFF }

/-- The amended per-operation flag contract for the ten 8-bit ALU helpers
(`a`, `v` are the 8-bit operands, `r` the inc/dec operand, `f` the starting
flag byte). -/
def AluFlagSpec (a v r f : Nat) : Prop :=
  (flag_is_active (add_a a v f).2 Flags.Zero = decide ((add_a a v f).1 = 0) ∧
    flag_is_active (add_a a v f).2 Flags.Negative = false ∧
    flag_is_active (add_a a v f).2 Flags.HalfCarry = decide (a % 16 + v % 16 > 15) ∧
    flag_is_active (add_a a v f).2 Flags.Carry = decide (a + v > 255)) ∧
  (flag_is_active (adc_a_reg a v f).2 Flags.Zero = decide ((adc_a_reg a v f).1 = 0) ∧
    flag_is_active (adc_a_reg a v f).2 Flags.Negative = false ∧
    flag_is_active (adc_a_reg a v f).2 Flags.HalfCarry =
      decide (a % 16 + v % 16 + (if flag_is_active f Flags.Carry then 1 else 0) > 15) ∧
    flag_is_active (adc_a_reg a v f).2 Flags.Carry =
      decide (a + v + (if flag_is_active f Flags.Carry then 1 else 0) > 255)) ∧
  (flag_is_active (sub a v f).2 Flags.Zero = decide (a = v) ∧
    flag_is_active (sub a v f).2 Flags.Negative = true ∧
    flag_is_active (sub a v f).2 Flags.HalfCarry = decide (a % 16 < v % 16) ∧
    flag_is_active (sub a v f).2 Flags.Carry = decide (a < v)) ∧
  (flag_is_active (sbc_a_reg a v f).2 Flags.Zero =
      decide (a = (v + (if flag_is_active f Flags.Carry then 1 else 0)) % 256) ∧
    flag_is_active (sbc_a_reg a v f).2 Flags.Negative = true ∧
    flag_is_active (sbc_a_reg a v f).2 Flags.HalfCarry =
      decide (a % 16 < v % 16 + (if flag_is_active f Flags.Carry then 1 else 0)) ∧
    flag_is_active (sbc_a_reg a v f).2 Flags.Carry =
      decide (a < v + (if flag_is_active f Flags.Carry then 1 else 0))) ∧
  (flag_is_active (and_a_helper a v f).2 Flags.Zero = decide (a &&& v = 0) ∧
    flag_is_active (and_a_helper a v f).2 Flags.Negative = false ∧
    flag_is_active (and_a_helper a v f).2 Flags.HalfCarry = true ∧
    flag_is_active (and_a_helper a v f).2 Flags.Carry = false) ∧
  (flag_is_active (xor_a_helper a v f).2 Flags.Zero = decide (a = v) ∧
    flag_is_active (xor_a_helper a v f).2 Flags.Negative = false ∧
    flag_is_active (xor_a_helper a v f).2 Flags.HalfCarry = false ∧
    flag_is_active (xor_a_helper a v f).2 Flags.Carry = false) ∧
  (flag_is_active (or_a_helper a v f).2 Flags.Zero = decide (a = 0 ∧ v = 0) ∧
    flag_is_active (or_a_helper a v f).2 Flags.Negative = false ∧
    flag_is_active (or_a_helper a v f).2 Flags.HalfCarry = false ∧
    flag_is_active (or_a_helper a v f).2 Flags.Carry = false) ∧
  (flag_is_active (cp_a_helper a v f) Flags.Zero = decide (a = v) ∧
    flag_is_active (cp_a_helper a v f) Flags.Negative = true ∧
    flag_is_active (cp_a_helper a v f) Flags.HalfCarry = decide (a % 16 < v % 16) ∧
    flag_is_active (cp_a_helper a v f) Flags.Carry = decide (a < v)) ∧
  (flag_is_active (inc_reg r f).2 Flags.Zero = decide (r = 255) ∧
    flag_is_active (inc_reg r f).2 Flags.Negative = false ∧
    flag_is_active (inc_reg r f).2 Flags.HalfCarry = decide (r % 16 = 15) ∧
    flag_is_active (inc_reg r f).2 Flags.Carry = flag_is_active f Flags.Carry) ∧
  (flag_is_active (dec_reg r f).2 Flags.Zero = decide (r = 1) ∧
    flag_is_active (dec_reg r f).2 Flags.Negative = true ∧
    flag_is_active (dec_reg r f).2 Flags.HalfCarry = decide (r % 16 = 0) ∧
    flag_is_active (dec_reg r f).2 Flags.Carry = flag_is_active f Flags.Carry)

/-! ### Pointwise function update (used to embed `Vec<u8>` writes) -/

/-- Pointwise update of a byte array embedded as `Nat → Nat`. -/
def fupd (g : Nat → Nat) (k v : Nat) : Nat → Nat :=
  fun j => if j = k then v else g j

/-! ### Cartridge (`cartridge.rs`)

Only the emulation-relevant state is embedded; the header-metadata fields
(`title`, `ctype`, `rom_size`, `ram_size`, `rom_version`, `checksum`) are
display-only in the source and are omitted.  The ROM image (`data : Vec<u8>`)
is a total byte function plus its length; in-bounds indexing agrees with the
source (`Vec` indexing panics out of bounds, which no bus dispatch reaches).
-/

inductive MBCType where
  | RomOnly
  | MBC1
  | MBC2
  | MBC3

structure Cartridge where
  data : Nat → Nat
  data_len : Nat
  mbc_type : MBCType
  rom_bank : Nat
  ram_bank : Nat
  banking_mode : Nat

/-- `Cartridge::new()` (the ROM image is loaded separately at startup). -/
def Cartridge.new : Cartridge :=
  { data := fun _ => 0, data_len := 0, mbc_type := MBCType.RomOnly,
    rom_bank := 1, ram_bank := 0, banking_mode := 0 }

/-- `self.data.get(offset).copied().unwrap_or(0xFF)`. -/
def Cartridge.data_get_or_ff (c : Cartridge) (offset : Nat) : Nat :=
  if offset < c.data_len then c.data offset else 0xFF

/-- `Cartridge::read_byte`. -/
def Cartridge.read_byte (c : Cartridge) (addr : Nat) : Nat :=
  match c.mbc_type with
  | MBCType.RomOnly => c.data addr
  | MBCType.MBC1 =>
      if addr ≤ 0x3FFF then c.data addr
      else if addr ≤ 0x7FFF then
        let bank := c.rom_bank &&& 0x1F
        let bank := if bank = 0 then 1 else bank
        c.data_get_or_ff (bank * 0x4000 + (addr - 0x4000))
      else 0xFF
  | MBCType.MBC2 =>
      if addr ≤ 0x3FFF then c.data addr
      else if addr ≤ 0x7FFF then
        let bank := c.rom_bank &&& 0x0F
        let bank := if bank = 0 then 1 else bank
        c.data_get_or_ff (bank * 0x4000 + (addr - 0x4000))
      else 0xFF
  | MBCType.MBC3 =>
      if addr ≤ 0x3FFF then c.data addr
      else if addr ≤ 0x7FFF then
        let bank := c.rom_bank &&& 0x7F
        let bank := if bank = 0 then 1 else bank
        c.data_get_or_ff (bank * 0x4000 + (addr - 0x4000))
      else 0xFF

/-- `Cartridge::write_byte` (MBC banking registers). -/
def Cartridge.write_byte (c : Cartridge) (addr value : Nat) : Cartridge :=
  match c.mbc_type with
  | MBCType.RomOnly => c
  | MBCType.MBC1 =>
      if addr ≤ 0x1FFF then c
      else if addr ≤ 0x3FFF then
        let rom_bank := (c.rom_bank &&& 0x60) ||| (value &&& 0x1F)
        let rom_bank := if rom_bank &&& 0x1F = 0 then (rom_bank &&& 0xE0) ||| 1 else rom_bank
        { c with rom_bank := rom_bank }
      else if addr ≤ 0x5FFF then
        if c.banking_mode = 0 then
          { c with rom_bank := (c.rom_bank &&& 0x1F) ||| ((value &&& 0x03) <<< 5) }
        else { c with ram_bank := value &&& 0x03 }
      else if addr ≤ 0x7FFF then { c with banking_mode := value &&& 0x01 }
      else c
  | MBCType.MBC2 =>
      if addr ≤ 0x3FFF then
        let rom_bank := value &&& 0x0F
        { c with rom_bank := if rom_bank = 0 then 1 else rom_bank }
      else c
  | MBCType.MBC3 =>
      if addr ≤ 0x1FFF then c
      else if addr ≤ 0x3FFF then
        let rom_bank := value &&& 0x7F
        { c with rom_bank := if rom_bank = 0 then 1 else rom_bank }
      else if addr ≤ 0x5FFF then { c with ram_bank := value &&& 0x03 }
      else c

/-! ### Serial port (`serial.rs`) -/

structure Serial where
  data : Nat
  control : Nat
  transfer_in_progress : Bool
  transfer_cycles : Nat

/-- `Serial::new()`. -/
def Serial.new : Serial :=
  { data := 0, control := 0, transfer_in_progress := false, transfer_cycles := 0 }

/-- `Serial::read_byte`; addresses outside 0xFF01/0xFF02 panic in the source
and are unreachable from the bus dispatch (embedded as 0). -/
def Serial.read_byte (s : Serial) (addr : Nat) : Nat :=
  if addr = 0xFF01 then s.data
  else if addr = 0xFF02 then s.control
  else 0

/-- `Serial::write_byte` (serial.rs lines 28-44).  The `print!` of the data
byte to stdout — the external sink — is embedded as the optional second
component of the result.  Note the source never sets
`transfer_in_progress`: on `value & 0x81 == 0x81` it emits the data byte
immediately and clears the start bit (`control &= !0x80`). -/
def Serial.write_byte (s : Serial) (addr value : Nat) : Serial × Option Nat :=
  if addr = 0xFF01 then ({ s with data := value }, none)
  else if addr = 0xFF02 then
    let s := { s with control := value }
    if value &&& 0x81 = 0x81 then
      ({ s with control := s.control &&& (0xFF ^^^ 0x80) }, some s.data)
    else (s, none)
  else (s, none)

/-- `Serial::step` (serial.rs lines 46-56); the Bool result signals that the
serial interrupt should be raised. -/
def Serial.step (s : Serial) (cycles : Nat) : Serial × Bool :=
  if s.transfer_in_progress then
    let transfer_cycles := s.transfer_cycles - cycles
    if transfer_cycles = 0 then
      ({ s with transfer_in_progress := false, control := 0,
                transfer_cycles := transfer_cycles }, true)
    else ({ s with transfer_cycles := transfer_cycles }, false)
  else (s, false)

/-! ### Interval timer (`timer.rs`) -/

structure Timer where
  div : Nat
  tima : Nat
  tma : Nat
  tac : Nat
  div_counter : Nat
  interrupt : Bool
  tima_reload_delay : Option Nat

/-- `Timer::new()`. -/
def Timer.new : Timer :=
  { div := 0, tima := 0, tma := 0, tac := 0, div_counter := 0,
    interrupt := false, tima_reload_delay := none }

/-- `Timer::timer_enabled`. -/
def Timer.timer_enabled (t : Timer) : Bool := t.tac &&& 0x04 ≠ 0

/-- `Timer::get_div_bit`. -/
def Timer.get_div_bit (tac : Nat) : Nat :=
  match tac &&& 0x03 with
  | 0 => 9
  | 1 => 3
  | 2 => 5
  | 3 => 7
  | _ => 9

/-- One iteration of the `for _ in 0..m_cycles` loop in `Timer::update`
(timer.rs lines 64-92): one M-cycle = 4 T-cycles. -/
def Timer.update_mcycle (t : Timer) : Timer :=
  let old_div_counter := t.div_counter
  let div_counter := (t.div_counter + 4) % 65536
  let t := { t with div_counter := div_counter, div := (div_counter >>> 8) % 256 }
  let bit := Timer.get_div_bit t.tac
  let old_bit := (old_div_counter >>> bit) &&& 1 ≠ 0
  let new_bit := (div_counter >>> bit) &&& 1 ≠ 0
  let t :=
    if Timer.timer_enabled t ∧ old_bit ∧ ¬ new_bit then
      if t.tima = 0xFF then { t with tima := 0, tima_reload_delay := some 4 }
      else { t with tima := (t.tima + 1) % 256 }
    else t
  match t.tima_reload_delay with
  | some delay =>
      let delay := delay - min delay 4
      if delay = 0 then
        { t with tima := t.tma, interrupt := true, tima_reload_delay := none }
      else { t with tima_reload_delay := some delay }
  | none => t

/-- `Timer::update` (timer.rs lines 59-93). -/
def Timer.update (t : Timer) (m_cycles : Nat) : Timer :=
  match m_cycles with
  | 0 => t
  | n + 1 => Timer.update (Timer.update_mcycle t) n

/-- `Timer::read_byte`; unreachable addresses (source panics) return 0. -/
def Timer.read_byte (t : Timer) (addr : Nat) : Nat :=
  if addr = 0xFF04 then t.div
  else if addr = 0xFF05 then t.tima
  else if addr = 0xFF06 then t.tma
  else if addr = 0xFF07 then t.tac
  else 0

/-- `Timer::write_byte` (timer.rs lines 105-149). -/
def Timer.write_byte (t : Timer) (addr value : Nat) : Timer :=
  if addr = 0xFF04 then
    let bit := Timer.get_div_bit t.tac
    let old_bit := (t.div_counter >>> bit) &&& 1 ≠ 0
    let t := { t with div_counter := 0, div := 0 }
    if Timer.timer_enabled t ∧ old_bit then
      if t.tima = 0xFF then { t with tima := 0, tima_reload_delay := some 4 }
      else { t with tima := (t.tima + 1) % 256 }
    else t
  else if addr = 0xFF05 then
    let t := { t with tima := value }
    if t.tima_reload_delay.isSome then { t with tima_reload_delay := none } else t
  else if addr = 0xFF06 then { t with tma := value }
  else if addr = 0xFF07 then
    let old_bit := (t.div_counter >>> Timer.get_div_bit t.tac) &&& 1 ≠ 0
    let old_enabled := Timer.timer_enabled t
    let new_tac := value &&& 0x7
    let new_bit := (t.div_counter >>> Timer.get_div_bit new_tac) &&& 1 ≠ 0
    let new_enabled := new_tac &&& 0x4 ≠ 0
    let t :=
      if old_enabled ∧ old_bit ∧ (¬ new_enabled ∨ ¬ new_bit) then
        if t.tima = 0xFF then { t with tima := 0, tima_reload_delay := some 4 }
        else { t with tima := (t.tima + 1) % 256 }
      else t
    { t with tac := new_tac }
  else t

/-! ### Display controller (`ppu.rs`) -/

structure Ppu where
  video_ram : Nat → Nat
  frame_buffer : Nat → Nat
  mode : Nat
  oam : Nat → Nat
  ly : Nat
  ly_cycles : Nat
  stat : Nat
  lyc : Nat
  lcdc : Nat
  scy : Nat
  scx : Nat
  bgp : Nat
  obp0 : Nat
  obp1 : Nat
  wy : Nat
  wx : Nat
  window_line_counter : Nat
  scanline_sprites : List Nat

/-- `Ppu::new()`. -/
def Ppu.new : Ppu :=
  { video_ram := fun _ => 0x00, frame_buffer := fun _ => 0x00FFFFFF, mode := 0,
    oam := fun _ => 0xFF, ly := 0, ly_cycles := 0, stat := 0x85, lyc := 0x00,
    lcdc := 0x91, scy := 0, scx := 0, bgp := 0xFC, obp0 := 0xFF, obp1 := 0xFF,
    wy := 0, wx := 0, window_line_counter := 0, scanline_sprites := [] }

/-- `Ppu::get_tile_color_id` (ppu.rs lines 181-207).  The signed tile-data
addressing `(0x9000u16).wrapping_add(((tile_data as i8 as i16) * 16) as u16)`
is embedded as explicit mod-65536 arithmetic. -/
def Ppu.get_tile_color_id (p : Ppu) (map_x map_y : Nat) (use_high_tile_map : Bool) : Nat :=
  let tile_x := map_x / 8
  let tile_y := map_y / 8
  let tile_index := (if use_high_tile_map then 0x9C00 else 0x9800) + tile_y * 32 + tile_x
  let tile_data := p.video_ram (tile_index - 0x8000)
  let pixel_row := map_y % 8
  let tile_addr :=
    if p.lcdc &&& 0x10 ≠ 0 then 0x8000 + tile_data * 16 + pixel_row * 2
    else (0x9000 + tile_data * 16 + (if 128 ≤ tile_data then 0x10000 - 0x1000 else 0)
          + pixel_row * 2) % 0x10000
  let byte_low := p.video_ram (tile_addr - 0x8000)
  let byte_high := p.video_ram (tile_addr + 1 - 0x8000)
  let bit_index := 7 - map_x % 8
  ((byte_high >>> bit_index) &&& 1) <<< 1 ||| ((byte_low >>> bit_index) &&& 1)

/-- `Ppu::apply_palette` (ppu.rs lines 209-219). -/
def Ppu.apply_palette (palette color_id : Nat) : Nat :=
  let shade := (palette >>> (color_id * 2)) &&& 0x03
  let pixel_color :=
    if shade = 0 then 255 else if shade = 1 then 170 else if shade = 2 then 85 else 0
  0xFF000000 ||| pixel_color <<< 16 ||| pixel_color <<< 8 ||| pixel_color

/-- The `for i in 0..MAX_OAM_ENTRIES` loop of `Ppu::oam_scan` with its
early break at 10 selected sprites. -/
def Ppu.oam_scan_go (p : Ppu) (sprite_height : Int) (i : Nat) (acc : List Nat) : List Nat :=
  if i < 40 then
    let sprite_y : Int := (p.oam (i * 4) : Int) - 16
    if sprite_y ≤ (p.ly : Int) ∧ sprite_y + sprite_height > (p.ly : Int) then
      let acc2 := acc ++ [i]
      if acc2.length ≥ 10 then acc2
      else Ppu.oam_scan_go p sprite_height (i + 1) acc2
    else Ppu.oam_scan_go p sprite_height (i + 1) acc
  else acc
termination_by 40 - i
decreasing_by all_goals omega

/-- `Ppu::oam_scan` (ppu.rs lines 321-340): the resulting
`scanline_sprites` list. -/
def Ppu.oam_scan (p : Ppu) : List Nat :=
  if p.lcdc &&& 0x02 = 0 then []
  else Ppu.oam_scan_go p (if p.lcdc &&& 0x04 ≠ 0 then 16 else 8) 0 []

/-- The `self.scanline_sprites.iter().for_each(...)` sprite compositor for
one pixel column `x` of `Ppu::render_scanline` (ppu.rs lines 260-313),
folded over the selected sprites, updating the frame buffer. -/
def Ppu.sprite_overlay (p : Ppu) (x bg_color_id : Nat) (fb0 : Nat → Nat) : Nat → Nat :=
  p.scanline_sprites.foldl
    (fun fb sprite =>
      let sprite_x : Int := (p.oam (sprite * 4 + 1) : Int) - 8
      let sprite_y : Int := (p.oam (sprite * 4) : Int) - 16
      let sprite_tile := p.oam (sprite * 4 + 2)
      let sprite_attr := p.oam (sprite * 4 + 3)
      let sprite_height : Int := if p.lcdc &&& 0x04 ≠ 0 then 16 else 8
      if (x : Int) ≥ sprite_x ∧ (x : Int) < sprite_x + 8 then
        let tile_row : Nat :=
          ((if sprite_attr &&& 0x40 ≠ 0 then
              sprite_height - 1 - ((p.ly : Int) - sprite_y)
            else (p.ly : Int) - sprite_y) % 65536).toNat
        let tile :=
          if sprite_height = 16 then
            if tile_row < 8 then sprite_tile &&& 0xFE else sprite_tile ||| 0x01
          else sprite_tile
        let row_in_tile := tile_row % 8
        let tile_addr := 0x8000 + tile * 16 + row_in_tile * 2
        let byte_low := p.video_ram (tile_addr - 0x8000)
        let byte_high := p.video_ram (tile_addr + 1 - 0x8000)
        let bit_index :=
          if sprite_attr &&& 0x20 ≠ 0 then (((x : Int) - sprite_x) % 256).toNat
          else 7 - (((x : Int) - sprite_x) % 256).toNat
        let color_id := ((byte_high >>> bit_index) &&& 1) <<< 1 ||| ((byte_low >>> bit_index) &&& 1)
        if color_id ≠ 0 then
          if sprite_attr &&& 0x80 ≠ 0 ∧ bg_color_id ≠ 0 then fb
          else
            let palette := if sprite_attr &&& 0x10 ≠ 0 then p.obp1 else p.obp0
            fupd fb (p.ly * 160 + x) (Ppu.apply_palette palette color_id)
        else fb
      else fb)
    fb0

/-- `Ppu::render_scanline` (ppu.rs lines 221-319).  The per-x state of the
`for (x, bg_color_id)` loop is (frame buffer, window_drawn); each iteration
uses only its own `bg_color_ids` slot, so the array reduces to the local
`bg_color_id` value. -/
def Ppu.render_scanline (p0 : Ppu) : Ppu :=
  let window_width := 160
  let p := { p0 with scanline_sprites := p0.oam_scan }
  let res :=
    (List.range window_width).foldl
      (fun (acc : (Nat → Nat) × Bool) (x : Nat) =>
        let fb := acc.1
        let window_drawn := acc.2
        let bg_map_y := (p.scy + p.ly) % 256
        let bg_map_x := (p.scx + x) % 256
        if p.lcdc &&& 0x01 = 0 then
          (fupd fb (p.ly * window_width + x) 0xFFFFFFFF, window_drawn)
        else
          let color_id := p.get_tile_color_id bg_map_x bg_map_y (p.lcdc &&& 0x08 ≠ 0)
          let fb := fupd fb (p.ly * window_width + x) (Ppu.apply_palette p.bgp color_id)
          let bg_color_id := color_id
          if p.lcdc &&& 0x20 ≠ 0 ∧ p.ly ≥ p.wy ∧ x ≥ p.wx - 7 then
            let win_x := x - (p.wx - 7)
            let win_y := p.window_line_counter
            let color_id2 := p.get_tile_color_id win_x win_y (p.lcdc &&& 0x40 ≠ 0)
            let bg_color_id := color_id2
            let fb := fupd fb (p.ly * window_width + x) (Ppu.apply_palette p.bgp color_id2)
            (p.sprite_overlay x bg_color_id fb, true)
          else
            (p.sprite_overlay x bg_color_id fb, window_drawn))
      (p.frame_buffer, false)
  { p with
      frame_buffer := res.1,
      window_line_counter :=
        if res.2 then p.window_line_counter + 1 else p.window_line_counter }

/-- `if self.ly < 144 { self.render_scanline(); }` inside the while loop of
`Ppu::update_ly`. -/
def Ppu.maybe_render (p : Ppu) : Ppu :=
  if p.ly < 144 then p.render_scanline else p

/-- Body of the `while self.ly_cycles >= 456` loop of `Ppu::update_ly`
(ppu.rs lines 152-176): consume 456 cycles, render the scanline if visible,
advance/wrap `ly` (resetting the window line counter on wrap), request
vblank at `ly == 144`, and maintain the STAT coincidence flag/interrupt. -/
def Ppu.ly_step (p0 : Ppu) (mask : Nat) : Ppu × Nat :=
  let p := Ppu.maybe_render { p0 with ly_cycles := p0.ly_cycles - 456 }
  let ly1 := (p.ly + 1) % 256
  let ly2 := if ly1 > 153 then 0 else ly1
  let wlc := if ly1 > 153 then 0 else p.window_line_counter
  let mask := if ly2 = 144 then mask ||| 0x01 else mask
  let stat2 := if ly2 = p.lyc then p.stat ||| 0x04 else p.stat &&& 0xFB
  let mask :=
    if ly2 = p.lyc ∧ (p.stat ||| 0x04) &&& 0x40 ≠ 0 then mask ||| 0x02 else mask
  ({ p with ly := ly2, window_line_counter := wlc, stat := stat2 }, mask)

/-- The `while self.ly_cycles >= 456` loop of `Ppu::update_ly`. -/
def Ppu.ly_loop (p : Ppu) (mask : Nat) : Ppu × Nat :=
  if h : 456 ≤ p.ly_cycles then
    let pm := Ppu.ly_step p mask
    Ppu.ly_loop pm.1 pm.2
  else (p, mask)
termination_by p.ly_cycles
decreasing_by
  have hmr : ∀ q : Ppu, (Ppu.maybe_render q).ly_cycles = q.ly_cycles := by
    intro q
    unfold Ppu.maybe_render
    split
    · rfl
    · rfl
  have hstep : ∀ (q : Ppu) (m : Nat), (Ppu.ly_step q m).1.ly_cycles = q.ly_cycles - 456 := by
    intro q m
    exact hmr { q with ly_cycles := q.ly_cycles - 456 }
  simp only [hstep]
  omega

/-- The mode-transition block of `Ppu::update_ly` (ppu.rs lines 133-150):
set the current mode from `ly`/`ly_cycles` and request the lcd-status
interrupt (bitmask bit 1) on an enabled mode entry. -/
def Ppu.mode_update (p : Ppu) (mode_before bitmask : Nat) : Ppu × Nat :=
  if p.ly ≥ 144 then
    let p := { p with mode := 1 }
    if mode_before ≠ p.mode ∧ p.stat &&& 0x10 ≠ 0 then (p, bitmask ||| 0x02)
    else (p, bitmask)
  else if p.ly_cycles < 80 then
    let p := { p with mode := 2 }
    if mode_before ≠ p.mode ∧ p.stat &&& 0x20 ≠ 0 then (p, bitmask ||| 0x02)
    else (p, bitmask)
  else if p.ly_cycles < 252 then ({ p with mode := 3 }, bitmask)
  else
    let p := { p with mode := 0 }
    if mode_before ≠ p.mode ∧ p.stat &&& 0x08 ≠ 0 then (p, bitmask ||| 0x02)
    else (p, bitmask)

/-- `Ppu::update_ly` (ppu.rs lines 118-179); returns the updated PPU and the
interrupt-request bitmask (bit 0 = vblank, bit 1 = lcd-status). -/
def Ppu.update_ly (p0 : Ppu) (cycles : Nat) : Ppu × Nat :=
  let bitmask : Nat := 0
  let p := { p0 with ly_cycles := p0.ly_cycles + cycles }
  let mode_before := p.mode
  if p.lcdc &&& 0x80 = 0 then
    ({ p with ly := 0, ly_cycles := 0, mode := 0, stat := p.stat &&& 0xFB }, bitmask)
  else
    let pm := Ppu.mode_update p mode_before bitmask
    Ppu.ly_loop pm.1 pm.2

/-- A sequence of `update_ly` calls (the per-instruction display stepping of
`run_cycle`), counting how many calls requested the vblank interrupt
(bitmask bit 0). -/
def Ppu.run_ly (p : Ppu) : List Nat → Ppu × Nat
  | [] => (p, 0)
  | c :: cs =>
      let r := p.update_ly c
      let rest := Ppu.run_ly r.1 cs
      (rest.1, (if r.2 &&& 1 ≠ 0 then 1 else 0) + rest.2)

/-- `Ppu::read_byte` (locked regions return 0xFF; unreachable addresses
panic in the source, embedded as 0). -/
def Ppu.read_byte (p : Ppu) (addr : Nat) : Nat :=
  if 0x8000 ≤ addr ∧ addr ≤ 0x9FFF then
    if p.mode = 3 ∧ p.lcdc &&& 0x80 ≠ 0 then 0xFF else p.video_ram (addr - 0x8000)
  else if 0xFE00 ≤ addr ∧ addr ≤ 0xFE9F then
    if (p.mode = 2 ∨ p.mode = 3) ∧ p.lcdc &&& 0x80 ≠ 0 then 0xFF
    else p.oam (addr - 0xFE00)
  else if addr = 0xFF40 then p.lcdc
  else if addr = 0xFF41 then 0x80 ||| p.stat ||| p.mode
  else if addr = 0xFF42 then p.scy
  else if addr = 0xFF43 then p.scx
  else if addr = 0xFF44 then p.ly
  else if addr = 0xFF45 then p.lyc
  else if addr = 0xFF47 then p.bgp
  else if addr = 0xFF48 then p.obp0
  else if addr = 0xFF49 then p.obp1
  else if addr = 0xFF4A then p.wy
  else if addr = 0xFF4B then p.wx
  else 0

/-- `Ppu::write_byte`. -/
def Ppu.write_byte (p : Ppu) (addr value : Nat) : Ppu :=
  if 0x8000 ≤ addr ∧ addr ≤ 0x9FFF then
    if p.mode = 3 ∧ p.lcdc &&& 0x80 ≠ 0 then p
    else { p with video_ram := fupd p.video_ram (addr - 0x8000) value }
  else if 0xFE00 ≤ addr ∧ addr ≤ 0xFE9F then
    if (p.mode = 2 ∨ p.mode = 3) ∧ p.lcdc &&& 0x80 ≠ 0 then p
    else { p with oam := fupd p.oam (addr - 0xFE00) value }
  else if addr = 0xFF40 then { p with lcdc := value }
  else if addr = 0xFF41 then { p with stat := value &&& 0x7C }
  else if addr = 0xFF42 then { p with scy := value }
  else if addr = 0xFF43 then { p with scx := value }
  else if addr = 0xFF45 then { p with lyc := value }
  else if addr = 0xFF47 then { p with bgp := value }
  else if addr = 0xFF48 then { p with obp0 := value }
  else if addr = 0xFF49 then { p with obp1 := value }
  else if addr = 0xFF4A then { p with wy := value }
  else if addr = 0xFF4B then { p with wx := value }
  else p

/-! ### Bus (`bus.rs`)

The snapshot's `bus.rs` has no `ppu` field (it carries its own copies of
`ly`/`ly_cycles`/`stat`/`lyc` and the RAM arrays), while `cpu.rs`
(`run_cycle`) requires `self.bus.ppu` — the two files are from different
iterations of the project.  The embedding keeps all `bus.rs` fields and
dispatch behaviour and adds the `ppu` component that `cpu.rs` drives.
`Bus::update_ly` (bus.rs lines 276-299) duplicates the `ly`/vblank logic of
`Ppu::update_ly` and is not called by `Cpu::run_cycle`, which uses
`bus.ppu.update_ly`. -/

structure Bus where
  timer : Timer
  rom : Cartridge
  serial : Serial
  working_ram : Nat → Nat
  video_ram : Nat → Nat
  oam : Nat → Nat
  high_ram : Nat → Nat
  ly : Nat
  ly_cycles : Nat
  stat : Nat
  lyc : Nat
  ie : Nat
  if_ : Nat
  ppu : Ppu

/-- `Bus::new` (bus.rs lines 55-116), given an already-loaded cartridge. -/
def Bus.new (rom : Cartridge) : Bus :=
  { timer := Timer.new, serial := Serial.new, rom := rom,
    working_ram := fun _ => 0xFF, video_ram := fun _ => 0xFF,
    oam := fun _ => 0xFF, high_ram := fun _ => 0xFF,
    ly := 0, ly_cycles := 0, stat := 0x85, lyc := 0x00, ie := 0x00, if_ := 0x00,
    ppu := Ppu.new }

/-- `Bus::read_byte` (bus.rs lines 118-196); the source match arms are
disjoint, rendered as a sequential dispatch. -/
def Bus.read_byte (b : Bus) (addr : Nat) : Nat :=
  if addr ≤ 0x7FFF then b.rom.read_byte addr
  else if addr ≤ 0x9FFF then b.video_ram (addr &&& 0x1FFF)
  else if addr ≤ 0xBFFF then b.rom.read_byte addr
  else if 0xC000 ≤ addr ∧ addr ≤ 0xDFFF then b.working_ram (addr &&& 0x1FFF)
  else if addr ≤ 0xFDFF then b.working_ram ((addr - 0x2000) &&& 0x1FFF)
  else if addr ≤ 0xFE9F then b.oam (addr - 0xFE00)
  else if addr ≤ 0xFEFF then 0
  else if addr = 0xFF00 then 0xFF
  else if 0xFF01 ≤ addr ∧ addr ≤ 0xFF02 then b.serial.read_byte addr
  else if 0xFF04 ≤ addr ∧ addr ≤ 0xFF07 then b.timer.read_byte addr
  else if addr = 0xFF0F then b.if_ &&& 0x1F
  else if 0xFF10 ≤ addr ∧ addr ≤ 0xFF26 then 0
  else if 0xFF80 ≤ addr ∧ addr ≤ 0xFFFE then b.high_ram (addr &&& 0x7F)
  else if addr = 0xFFFF then b.ie &&& 0x1F
  else if addr = 0xFF41 then
    let stat := b.stat &&& 0xFC
    let mode :=
      if b.ly ≥ 144 then 1
      else if b.ly_cycles < 80 then 2
      else if b.ly_cycles < 204 then 3
      else 0
    let stat := stat ||| mode
    if b.ly = b.lyc then stat ||| 0x04 else stat
  else if addr = 0xFF44 then 0x90
  else if addr = 0xFF45 then b.lyc
  else if addr = 0xFF40 then 0x91
  else if addr = 0xFF42 then 0x00
  else if addr = 0xFF43 then 0x00
  else if addr = 0xFF46 then 0x00
  else if addr = 0xFF47 then 0xFC
  else if addr = 0xFF48 then 0xFF
  else if addr = 0xFF49 then 0xFF
  else if addr = 0xFF4A then 0x00
  else if addr = 0xFF4B then 0x00
  else 0

/-- The `for i in 0..160` loop of the 0xFF46 DMA arm of `Bus::write_byte`
(bus.rs lines 240-246).  Note the source reads `source_addr + 1` on every
iteration — the loop index `i` is used only on the OAM side. -/
def Bus.dma_loop (b : Bus) (source_addr : Nat) : Bus :=
  (List.range 160).foldl
    (fun bb i => { bb with oam := fupd bb.oam i (bb.read_byte (source_addr + 1)) }) b

/-- `Bus::write_byte` (bus.rs lines 198-265). -/
def Bus.write_byte (b : Bus) (addr value : Nat) : Bus :=
  if addr ≤ 0x7FFF then { b with rom := b.rom.write_byte addr value }
  else if addr ≤ 0x9FFF then
    { b with video_ram := fupd b.video_ram (addr &&& 0x1FFF) value }
  else if addr ≤ 0xBFFF then { b with rom := b.rom.write_byte addr value }
  else if 0xC000 ≤ addr ∧ addr ≤ 0xDFFF then
    let working_ram := fupd b.working_ram (addr &&& 0x1FFF) value
    let working_ram :=
      if addr + 0x2000 ≤ 0xFDFF then fupd working_ram ((addr + 0x2000) &&& 0x1FFF) value
      else working_ram
    { b with working_ram := working_ram }
  else if addr ≤ 0xFDFF then
    let working_ram := fupd b.working_ram ((addr - 0x2000) &&& 0x1FFF) value
    { b with working_ram := fupd working_ram (addr &&& 0x1FFF) value }
  else if addr ≤ 0xFE9F then { b with oam := fupd b.oam (addr - 0xFE00) value }
  else if addr ≤ 0xFEFF then b
  else if addr = 0xFF00 then b
  else if 0xFF01 ≤ addr ∧ addr ≤ 0xFF02 then
    { b with serial := (b.serial.write_byte addr value).1 }
  else if 0xFF04 ≤ addr ∧ addr ≤ 0xFF07 then
    { b with timer := b.timer.write_byte addr value }
  else if addr = 0xFF0F then { b with if_ := value &&& 0x1F }
  else if 0xFF10 ≤ addr ∧ addr ≤ 0xFF26 then b
  else if addr = 0xFF41 then { b with stat := value &&& 0x7C }
  else if addr = 0xFF45 then { b with lyc := value }
  else if addr = 0xFF40 then b
  else if addr = 0xFF42 then b
  else if addr = 0xFF43 then b
  else if addr = 0xFF46 then Bus.dma_loop b (value <<< 8)
  else if addr = 0xFF47 then b
  else if addr = 0xFF48 then b
  else if addr = 0xFF49 then b
  else if addr = 0xFF4A then b
  else if addr = 0xFF4B then b
  else if 0xFF80 ≤ addr ∧ addr ≤ 0xFFFE then
    { b with high_ram := fupd b.high_ram (addr &&& 0x7F) value }
  else if addr = 0xFFFF then { b with ie := value &&& 0x1F }
  else b

/-- `Bus::read_word` (little-endian). -/
def Bus.read_word (b : Bus) (addr : Nat) : Nat :=
  b.read_byte addr ||| (b.read_byte ((addr + 1) % 65536)) <<< 8

/-- `Bus::write_word` (little-endian; `(value >> 8) as u8` truncates). -/
def Bus.write_word (b : Bus) (addr value : Nat) : Bus :=
  (b.write_byte addr (value &&& 0xFF)).write_byte ((addr + 1) % 65536) ((value >>> 8) % 256)

/-! ### Processor (`cpu.rs`) -/

/-- `cpu.rs`: processor state.  `stop_cycles` embeds the source's
process-wide `static mut STOP_CYCLES` counter of the STOP branch as an
explicit field. -/
structure Cpu where
  reg : Register
  bus : Bus
  m : Nat
  halted : Bool
  ime : Bool
  enable_ime_next : Bool
  stopped : Bool
  stop_cycles : Nat

/-- `Cpu::new` (post-boot state; the ROM image is loaded into the bus). -/
def Cpu.new (rom : Cartridge) : Cpu :=
  { reg := Register.new, bus := Bus.new rom, m := 0, halted := false,
    ime := false, enable_ime_next := false, stopped := false, stop_cycles := 0 }

/-- `Cpu::handle_interrupts` (cpu.rs lines 38-81); returns the new state and
whether an interrupt was dispatched. -/
def Cpu.handle_interrupts (cpu : Cpu) (push_return : Bool) : Cpu × Bool :=
  let ie := cpu.bus.read_byte 0xFFFF
  let iflag := cpu.bus.read_byte 0xFF0F
  let pending := ie &&& iflag
  if pending ≠ 0 then
    let sel : Option (Nat × Nat) :=
      if pending &&& 0x01 ≠ 0 then some (0x40, 0x01)
      else if pending &&& 0x02 ≠ 0 then some (0x48, 0x02)
      else if pending &&& 0x04 ≠ 0 then some (0x50, 0x04)
      else if pending &&& 0x08 ≠ 0 then some (0x58, 0x08)
      else if pending &&& 0x10 ≠ 0 then some (0x60, 0x10)
      else none
    match sel with
    | none => ({ cpu with halted := false }, false)
    | some (pc, bit) =>
        let ime' := if cpu.ime then false else cpu.ime
        let en' := if cpu.ime then false else cpu.enable_ime_next
        let bus1 := cpu.bus.write_byte 0xFF0F (iflag &&& (0xFF ^^^ bit))
        let sp' := if push_return then (cpu.reg.sp + 65536 - 2) % 65536 else cpu.reg.sp
        let bus2 := if push_return then bus1.write_word sp' cpu.reg.pc else bus1
        ({ cpu with
            halted := false
            ime := ime'
            enable_ime_next := en'
            reg := { cpu.reg with sp := sp', pc := pc }
            bus := bus2
            m := 5 }, true)
  else (cpu, false)

/-- `Cpu::push_stack`. -/
def Cpu.push_stack (cpu : Cpu) (value : Nat) : Cpu :=
  let sp := (cpu.reg.sp + 65536 - 2) % 65536
  { cpu with reg := { cpu.reg with sp := sp }, bus := cpu.bus.write_word sp value }

/-- `Cpu::pop_stack`. -/
def Cpu.pop_stack (cpu : Cpu) : Cpu × Nat :=
  let value := cpu.bus.read_word cpu.reg.sp
  ({ cpu with reg := { cpu.reg with sp := (cpu.reg.sp + 2) % 65536 } }, value)

/-- `Cpu::pop_af` (cpu.rs lines 2225-2230): the popped word is masked with
0xFFF0 before `set_af`. -/
def Cpu.pop_af (cpu : Cpu) : Cpu :=
  let cpu := { cpu with m := 3 }
  let pop := cpu.pop_stack
  { pop.1 with reg := pop.1.reg.set_af (pop.2 &&& 0xFFF0) }

/-- `Cpu::ei` (cpu.rs lines 2298-2301): only sets the delayed-enable latch. -/
def Cpu.ei (cpu : Cpu) : Cpu :=
  { cpu with m := 1, enable_ime_next := true }

/-- `Cpu::di`. -/
def Cpu.di (cpu : Cpu) : Cpu :=
  { cpu with m := 1, ime := false }

/-- The peripheral-advance tail of `Cpu::run_cycle` (cpu.rs lines 2901-2911):
`bus.if_ = bus.ppu.update_ly(m)` (assignment, not or), timer update and
timer-interrupt transfer, serial step and serial-interrupt transfer. -/
def Cpu.advance_peripherals (cpu : Cpu) : Cpu :=
  let pm := cpu.bus.ppu.update_ly cpu.m
  let cpu := { cpu with bus := { cpu.bus with ppu := pm.1, if_ := pm.2 } }
  let cpu := { cpu with bus := { cpu.bus with timer := cpu.bus.timer.update cpu.m } }
  let cpu :=
    if cpu.bus.timer.interrupt then
      { cpu with
          bus := { cpu.bus with
                    if_ := cpu.bus.if_ ||| 0x04,
                    timer := { cpu.bus.timer with interrupt := false } } }
    else cpu
  let st := cpu.bus.serial.step cpu.m
  let cpu := { cpu with bus := { cpu.bus with serial := st.1 } }
  if st.2 then { cpu with bus := { cpu.bus with if_ := cpu.bus.if_ ||| 0x08 } } else cpu

/-- `Cpu::run_cycle` (cpu.rs lines 2846-2914), parameterized over the
`decode_execute` instruction-dispatch step (a 512-entry opcode table in the
source); every theorem below quantifies over it or avoids it.  Returns the
post-cycle state (whose `m` field is the cycle cost `run_cycle` returns). -/
def Cpu.run_cycle (decode_execute : Cpu → Cpu) (cpu0 : Cpu) : Cpu :=
  let cpu :=
    if cpu0.enable_ime_next then
      { cpu0 with ime := true, enable_ime_next := false }
    else cpu0
  if cpu.halted then
    let cpu := { cpu with m := 1 }
    let pm := cpu.bus.ppu.update_ly cpu.m
    let cpu := { cpu with bus := { cpu.bus with ppu := pm.1, if_ := pm.2 } }
    let cpu := { cpu with bus := { cpu.bus with timer := cpu.bus.timer.update cpu.m } }
    let cpu :=
      if cpu.bus.timer.interrupt then
        { cpu with
            bus := { cpu.bus with
                      if_ := cpu.bus.if_ ||| 0x04,
                      timer := { cpu.bus.timer with interrupt := false } } }
      else cpu
    let ie := cpu.bus.read_byte 0xFFFF
    let iflag := cpu.bus.read_byte 0xFF0F
    let pending := ie &&& iflag
    if pending ≠ 0 then
      let cpu := { cpu with halted := false }
      if cpu.ime then (cpu.handle_interrupts true).1 else cpu
    else cpu
  else if cpu.stopped then
    let stop_cycles := cpu.stop_cycles + cpu.m
    if stop_cycles ≥ 456 then
      { cpu with bus := { cpu.bus with if_ := cpu.bus.if_ ||| 0x10 },
                 stopped := false, stop_cycles := 0 }
    else { cpu with stop_cycles := stop_cycles }
  else
    let hi := if cpu.ime then cpu.handle_interrupts true else (cpu, false)
    if hi.2 then hi.1
    else
      let cpu := hi.1
      if ¬ cpu.halted then Cpu.advance_peripherals (decode_execute cpu) else cpu

/-- A concrete processor state with all five interrupts pending and enabled
(`IE = IF = 0x1F`), `ime` set, and the stack in work RAM. -/
def pending_cpu : Cpu :=
  { Cpu.new Cartridge.new with
      ime := true,
      reg := { Register.new with sp := 0xC100, pc := 0x1234 },
      bus := { Bus.new Cartridge.new with ie := 0x1F, if_ := 0x1F } }

/-- A concrete processor state immediately after the enable-interrupts
instruction retired (`Cpu.ei` applied), with a vblank interrupt already
pending and enabled and `ime` still clear. -/
def ei_pending_cpu : Cpu :=
  Cpu.ei
    { Cpu.new Cartridge.new with
        reg := { Register.new with sp := 0xC100, pc := 0x1234 },
        bus := { Bus.new Cartridge.new with ie := 0x01, if_ := 0x01 } }

/-! ### Flag-bit lemmas -/

theorem and_two_pow_beq (f k : Nat) :
    (f &&& 2 ^ k == 2 ^ k) = f.testBit k := by
  rw [Nat.and_two_pow]
  cases h : f.testBit k
  · simp [(Nat.two_pow_pos k).ne]
  · simp

theorem active_testBit (f : Nat) (fl : Flags) (h : fl ≠ Flags.NoFlag) :
    flag_is_active f fl = f.testBit (flagIdx fl) := by
  cases fl <;> simp only [flag_is_active, flagBit, flagIdx] <;>
    first
      | exact absurd rfl h
      | exact and_two_pow_beq f 7
      | exact and_two_pow_beq f 6
      | exact and_two_pow_beq f 5
      | exact and_two_pow_beq f 4

/-- Effect of `set_flag_on_if` on the four observable flag bits. -/
theorem active_son (f : Nat) (c : Bool) (fl fl' : Flags)
    (h : fl ≠ Flags.NoFlag) (h' : fl' ≠ Flags.NoFlag) :
    flag_is_active (set_flag_on_if f fl' c) fl =
      if fl = fl' then c else flag_is_active f fl := by
  cases fl <;> cases fl' <;> cases c <;>
    simp_all [set_flag_on_if, set_flag, unset_flag, flagBit, flagIdx,
      active_testBit, Nat.testBit_or, Nat.testBit_and, Nat.testBit_xor] <;>
    simp [Nat.testBit]

theorem active_set (f : Nat) (fl fl' : Flags)
    (h : fl ≠ Flags.NoFlag) (h' : fl' ≠ Flags.NoFlag) :
    flag_is_active (set_flag f fl') fl =
      if fl = fl' then true else flag_is_active f fl :=
  active_son f true fl fl' h h'

theorem active_unset (f : Nat) (fl fl' : Flags)
    (h : fl ≠ Flags.NoFlag) (h' : fl' ≠ Flags.NoFlag) :
    flag_is_active (unset_flag f fl') fl =
      if fl = fl' then false else flag_is_active f fl :=
  active_son f false fl fl' h h'

theorem active_zero (fl : Flags) : flag_is_active 0 fl = (fl == Flags.NoFlag) := by
  cases fl <;> decide

/-! ### ALU flag characterizations -/


theorem h15 : ∀ x : Nat, x &&& 15 = x % 16 := fun x => Nat.and_pow_two_sub_one_eq_mod x 4

theorem add_a_flags (a v f : Nat) :
    flag_is_active (add_a a v f).2 Flags.Zero = decide ((add_a a v f).1 = 0) ∧
    flag_is_active (add_a a v f).2 Flags.Negative = false ∧
    flag_is_active (add_a a v f).2 Flags.HalfCarry = decide (a % 16 + v % 16 > 15) ∧
    flag_is_active (add_a a v f).2 Flags.Carry = decide (a + v > 255) := by
  simp [add_a, active_son, active_set, active_unset, h15, Bool.beq_eq_decide_eq]

theorem adc_a_reg_flags (a v f : Nat) :
    flag_is_active (adc_a_reg a v f).2 Flags.Zero = decide ((adc_a_reg a v f).1 = 0) ∧
    flag_is_active (adc_a_reg a v f).2 Flags.Negative = false ∧
    flag_is_active (adc_a_reg a v f).2 Flags.HalfCarry =
      decide (a % 16 + v % 16 + (if flag_is_active f Flags.Carry then 1 else 0) > 15) ∧
    flag_is_active (adc_a_reg a v f).2 Flags.Carry =
      decide (a + v + (if flag_is_active f Flags.Carry then 1 else 0) > 255) := by
  cases hc : flag_is_active f Flags.Carry <;>
    simp [adc_a_reg, hc, active_son, active_set, active_unset, h15, Bool.beq_eq_decide_eq]

theorem sub_flags (a v f : Nat) (ha : a < 256) (hv : v < 256) :
    flag_is_active (sub a v f).2 Flags.Zero = decide (a = v) ∧
    flag_is_active (sub a v f).2 Flags.Negative = true ∧
    flag_is_active (sub a v f).2 Flags.HalfCarry = decide (a % 16 < v % 16) ∧
    flag_is_active (sub a v f).2 Flags.Carry = decide (a < v) := by
  have hz : (wsub8 a v = 0) = (a = v) := by
    unfold wsub8; rw [eq_iff_iff]; omega
  simp [sub, active_son, active_set, active_unset, h15, Bool.beq_eq_decide_eq, hz]

theorem sbc_a_reg_flags (a v f : Nat) (ha : a < 256) (hv : v < 256) :
    flag_is_active (sbc_a_reg a v f).2 Flags.Zero =
      decide (a = (v + (if flag_is_active f Flags.Carry then 1 else 0)) % 256) ∧
    flag_is_active (sbc_a_reg a v f).2 Flags.Negative = true ∧
    flag_is_active (sbc_a_reg a v f).2 Flags.HalfCarry =
      decide (a % 16 < v % 16 + (if flag_is_active f Flags.Carry then 1 else 0)) ∧
    flag_is_active (sbc_a_reg a v f).2 Flags.Carry =
      decide (a < v + (if flag_is_active f Flags.Carry then 1 else 0)) := by
  cases hc : flag_is_active f Flags.Carry <;>
  · have hz : ∀ c : Nat, c ≤ 1 → (wsub8 (wsub8 a v) c = 0) = (a = (v + c) % 256) := by
      intro c hc; unfold wsub8; rw [eq_iff_iff]; omega
    simp [sbc_a_reg, hc, active_son, active_set, active_unset, h15, Bool.beq_eq_decide_eq,
      hz 0 (by omega), hz 1 (by omega)]

theorem and_a_helper_flags (a v f : Nat) :
    flag_is_active (and_a_helper a v f).2 Flags.Zero = decide (a &&& v = 0) ∧
    flag_is_active (and_a_helper a v f).2 Flags.Negative = false ∧
    flag_is_active (and_a_helper a v f).2 Flags.HalfCarry = true ∧
    flag_is_active (and_a_helper a v f).2 Flags.Carry = false := by
  simp [and_a_helper, active_son, active_set, active_unset, Bool.beq_eq_decide_eq]

theorem xor_a_helper_flags (a v f : Nat) :
    flag_is_active (xor_a_helper a v f).2 Flags.Zero = decide (a = v) ∧
    flag_is_active (xor_a_helper a v f).2 Flags.Negative = false ∧
    flag_is_active (xor_a_helper a v f).2 Flags.HalfCarry = false ∧
    flag_is_active (xor_a_helper a v f).2 Flags.Carry = false := by
  have hz : (a ^^^ v = 0) = (a = v) := by
    rw [eq_iff_iff, Nat.xor_eq_zero]
  simp [xor_a_helper, active_son, active_zero, Bool.beq_eq_decide_eq, hz]

theorem or_a_helper_flags (a v f : Nat) :
    flag_is_active (or_a_helper a v f).2 Flags.Zero = decide (a = 0 ∧ v = 0) ∧
    flag_is_active (or_a_helper a v f).2 Flags.Negative = false ∧
    flag_is_active (or_a_helper a v f).2 Flags.HalfCarry = false ∧
    flag_is_active (or_a_helper a v f).2 Flags.Carry = false := by
  have hz : (a ||| v = 0) = (a = 0 ∧ v = 0) := by
    rw [eq_iff_iff]
    constructor
    · intro h
      constructor <;>
      · apply Nat.eq_of_testBit_eq
        intro i
        have hbit := congrArg (fun x => x.testBit i) h
        simp only [Nat.testBit_or, Nat.zero_testBit, Bool.or_eq_false_iff] at hbit
        simp [hbit.1, hbit.2]
    · rintro ⟨rfl, rfl⟩
      rfl
  simp [or_a_helper, active_son, active_zero, Bool.beq_eq_decide_eq, hz]

theorem cp_a_helper_flags (a v f : Nat) (ha : a < 256) (hv : v < 256) :
    flag_is_active (cp_a_helper a v f) Flags.Zero = decide (a = v) ∧
    flag_is_active (cp_a_helper a v f) Flags.Negative = true ∧
    flag_is_active (cp_a_helper a v f) Flags.HalfCarry = decide (a % 16 < v % 16) ∧
    flag_is_active (cp_a_helper a v f) Flags.Carry = decide (a < v) := by
  have hz : (wsub8 a v = 0) = (a = v) := by
    unfold wsub8; rw [eq_iff_iff]; omega
  simp [cp_a_helper, active_son, active_set, active_unset, h15, Bool.beq_eq_decide_eq, hz]

theorem inc_reg_flags (r f : Nat) (hr : r < 256) :
    flag_is_active (inc_reg r f).2 Flags.Zero = decide (r = 255) ∧
    flag_is_active (inc_reg r f).2 Flags.Negative = false ∧
    flag_is_active (inc_reg r f).2 Flags.HalfCarry = decide (r % 16 = 15) ∧
    flag_is_active (inc_reg r f).2 Flags.Carry = flag_is_active f Flags.Carry := by
  have hz : ((r + 1) % 256 = 0) = (r = 255) := by rw [eq_iff_iff]; omega
  have hh : 15 < r % 16 + 1 ↔ r % 16 = 15 := by omega
  simp [inc_reg, active_son, active_set, active_unset, h15, Bool.beq_eq_decide_eq, hz, hh]

theorem dec_reg_flags (r f : Nat) (hr : r < 256) :
    flag_is_active (dec_reg r f).2 Flags.Zero = decide (r = 1) ∧
    flag_is_active (dec_reg r f).2 Flags.Negative = true ∧
    flag_is_active (dec_reg r f).2 Flags.HalfCarry = decide (r % 16 = 0) ∧
    flag_is_active (dec_reg r f).2 Flags.Carry = flag_is_active f Flags.Carry := by
  have hz : (wsub8 r 1 = 0) = (r = 1) := by unfold wsub8; rw [eq_iff_iff]; omega
  have hh : (r &&& 15 = 0) = (r % 16 = 0) := by rw [h15]
  simp [dec_reg, active_son, active_set, active_unset, Bool.beq_eq_decide_eq, hz, hh]


/-- C1 counterexample: as literally stated the claim is false for the `and`
operation: `and_a_helper 0 0` sets HalfCarry although the low nibble did not
carry across bit 3 (0 % 16 + 0 % 16 = 0 ≤ 15).  (`inc`/`dec` similarly leave
Carry unchanged instead of deriving it from bit 7.) -/
theorem C1_alu_flags_counterexample :
    flag_is_active (and_a_helper 0 0 0).2 Flags.HalfCarry = true ∧
      ¬ (0 % 16 + 0 % 16 > 15) := by
  decide

/-- C1 (amended): for every pair of 8-bit operands and every starting flag
state, the ten 8-bit ALU helpers set Zero iff the 8-bit result is 0, set
Negative exactly on the subtraction family (sub, sbc, cp, dec), set
HalfCarry iff the low nibble carried/borrowed across bit 3 for the
arithmetic operations — except that `and` always sets HalfCarry and
`xor`/`or` always clear it — and set Carry iff the operation
carried/borrowed across bit 7 for add/adc/sub/sbc/cp, clear it for
and/xor/or, and leave it unchanged for inc/dec. -/
theorem C1_alu_flags (a v r f : Nat) (ha : a < 256) (hv : v < 256) (hr : r < 256) :
    AluFlagSpec a v r f :=
  ⟨add_a_flags a v f, adc_a_reg_flags a v f, sub_flags a v f ha hv,
    sbc_a_reg_flags a v f ha hv, and_a_helper_flags a v f, xor_a_helper_flags a v f,
    or_a_helper_flags a v f, cp_a_helper_flags a v f ha hv,
    inc_reg_flags r f hr, dec_reg_flags r f hr⟩

/-- Witness for C1 at the boundary input a = 0x0F, v = 0x01, r = 0xFF, f = 0. -/
theorem C1_alu_flags_witness :
    (15 : Nat) < 256 ∧ (1 : Nat) < 256 ∧ (255 : Nat) < 256 ∧ AluFlagSpec 15 1 255 0 :=
  ⟨by decide, by decide, by decide,
    C1_alu_flags 15 1 255 0 (by decide) (by decide) (by decide)⟩


theorem high_byte_shift (v : Nat) : (v &&& 0xFF00) >>> 8 = v / 256 % 256 := by
  apply Nat.eq_of_testBit_eq
  intro i
  have hff00 : (0xFF00 : Nat) = 255 <<< 8 := by decide
  have h255 : ∀ j : Nat, Nat.testBit 255 j = decide (j < 8) := by
    intro j
    have h : (255 : Nat) = 2 ^ 8 - 1 := by norm_num
    rw [h, Nat.testBit_two_pow_sub_one]
  have hdiv : v / 256 = v >>> 8 := by
    rw [Nat.shiftRight_eq_div_pow]
  have hmod : v / 256 % 256 = v / 256 % 2 ^ 8 := by norm_num
  rw [hff00, hmod, hdiv]
  simp only [Nat.testBit_shiftRight, Nat.testBit_and, Nat.testBit_shiftLeft,
    Nat.testBit_mod_two_pow, h255]
  have e1 : 8 ≤ 8 + i := by omega
  have e2 : 8 + i - 8 = i := by omega
  simp [e1, e2, Bool.and_comm]

theorem low_byte_and (v : Nat) : v &&& 0xFF = v % 256 := by
  have := Nat.and_pow_two_sub_one_eq_mod v 8
  norm_num at this
  exact this


/-- C3 counterexample: `set_af` stores the value verbatim, so
`set_af 0x0001; get_af` returns 0x0001, not 0x0001 &&& 0xFFF0 = 0. -/
theorem C3_set_af_counterexample :
    (Register.new.set_af 0x0001).get_af = 0x0001 ∧ (0x0001 : Nat) &&& 0xFFF0 = 0 := by
  decide

/-- C3 (amended): for every 16-bit value v, `set_af v` followed by `get_af`
returns v unchanged — `set_af` performs no masking of the low nibble of `f`
(the 0xFFF0 mask is applied by the `pop AF` instruction instead, cf. C10). -/
theorem C3_set_af_get_af (r : Register) (v : Nat) (hv : v < 65536) :
    (r.set_af v).get_af = v := by
  unfold Register.set_af Register.get_af
  simp only [high_byte_shift, low_byte_and]
  rw [Nat.shiftLeft_eq]
  have h256 : (256 : Nat) = 2 ^ 8 := by norm_num
  have hb : v % 2 ^ 8 < 2 ^ 8 := Nat.mod_lt v (by norm_num)
  rw [h256, Nat.mul_comm, ← Nat.mul_add_lt_is_or hb]
  omega

/-- Witness for C3 at v = 0xABCD. -/
theorem C3_set_af_get_af_witness :
    (0xABCD : Nat) < 65536 ∧ (Register.new.set_af 0xABCD).get_af = 0xABCD :=
  ⟨by decide, C3_set_af_get_af Register.new 0xABCD (by decide)⟩



/-- C4: failing-input evaluation.  With tac = 0b101 (enabled, fastest tap),
div_counter = 12 (tap bit 3 high, falling on the next M-cycle) and
TIMA = 0xFF, a single `update(1)` call both detects the overflow and —
in the same loop iteration — consumes the whole `Some(4)` reload delay:
TIMA is already TMA and the interrupt already raised, with no 4-cycle gap. -/
theorem C4_timer_overflow_no_gap :
    (Timer.update { Timer.new with tima := 0xFF, tma := 0x42, tac := 0x05, div_counter := 12 } 1).tima = 0x42 ∧
    (Timer.update { Timer.new with tima := 0xFF, tma := 0x42, tac := 0x05, div_counter := 12 } 1).interrupt = true ∧
    (Timer.update { Timer.new with tima := 0xFF, tma := 0x42, tac := 0x05, div_counter := 12 } 1).tima_reload_delay = none := by
  refine ⟨rfl, rfl, rfl⟩

/-- C9: writing the event counter (0xFF05) while a reload delay is pending
stores the written value, cancels the pending reload, and does not raise the
interrupt flag. -/
theorem C9_tima_write_cancels_reload (t : Timer) (v : Nat)
    (h : t.tima_reload_delay ≠ none) :
    (t.write_byte 0xFF05 v).tima = v ∧
    (t.write_byte 0xFF05 v).tima_reload_delay = none ∧
    (t.write_byte 0xFF05 v).interrupt = t.interrupt := by
  unfold Timer.write_byte
  simp [Option.isSome_iff_ne_none, h]

/-- Witness for C9 with a pending reload delay of 4. -/
theorem C9_tima_write_cancels_reload_witness :
    ({ Timer.new with tima_reload_delay := some 4 } : Timer).tima_reload_delay ≠ none ∧
    (({ Timer.new with tima_reload_delay := some 4 } : Timer).write_byte 0xFF05 0x55).tima = 0x55 ∧
    (({ Timer.new with tima_reload_delay := some 4 } : Timer).write_byte 0xFF05 0x55).tima_reload_delay = none ∧
    (({ Timer.new with tima_reload_delay := some 4 } : Timer).write_byte 0xFF05 0x55).interrupt =
      ({ Timer.new with tima_reload_delay := some 4 } : Timer).interrupt :=
  ⟨by decide, C9_tima_write_cancels_reload { Timer.new with tima_reload_delay := some 4 } 0x55 (by decide)⟩

/-- C8 counterexample: writing 0x81 to 0xFF02 does not begin a transfer
(`transfer_in_progress` is never set) and `step` keeps returning false, so
the serial interrupt is never signalled on "completion". -/
theorem C8_serial_counterexample :
    (({ Serial.new with data := 0x41 } : Serial).write_byte 0xFF02 0x81).1.transfer_in_progress = false ∧
    (((({ Serial.new with data := 0x41 } : Serial).write_byte 0xFF02 0x81).1.step 512)).2 = false := by
  decide

/-- C8 (amended): writing a byte with the transfer-start (0x80) and
internal-clock (0x01) bits to 0xFF02 immediately hands the data byte to the
external sink and clears the start bit; no transfer is begun and `step`
continues to return false (no serial interrupt). -/
theorem C8_serial_write_immediate (s : Serial) (v c : Nat) (hv : v &&& 0x81 = 0x81) :
    (s.write_byte 0xFF02 v).2 = some s.data ∧
    (s.write_byte 0xFF02 v).1.control = v &&& 0x7F ∧
    (s.write_byte 0xFF02 v).1.transfer_in_progress = s.transfer_in_progress ∧
    (s.transfer_in_progress = false → ((s.write_byte 0xFF02 v).1.step c).2 = false) := by
  unfold Serial.write_byte Serial.step
  refine ⟨by simp [hv], by simp [hv], by simp [hv], fun h => by simp [hv, h]⟩

/-- Witness for C8 at data = 0x41, control byte 0x81, 512 cycles. -/
theorem C8_serial_write_immediate_witness :
    (0x81 : Nat) &&& 0x81 = 0x81 ∧
    ((({ Serial.new with data := 0x41 } : Serial).write_byte 0xFF02 0x81).2 = some 0x41 ∧
     (({ Serial.new with data := 0x41 } : Serial).write_byte 0xFF02 0x81).1.control = 0x81 &&& 0x7F ∧
     (({ Serial.new with data := 0x41 } : Serial).write_byte 0xFF02 0x81).1.transfer_in_progress =
       ({ Serial.new with data := 0x41 } : Serial).transfer_in_progress ∧
     (({ Serial.new with data := 0x41 } : Serial).transfer_in_progress = false →
       ((({ Serial.new with data := 0x41 } : Serial).write_byte 0xFF02 0x81).1.step 512).2 = false)) :=
  ⟨by decide, C8_serial_write_immediate { Serial.new with data := 0x41 } 0x81 512 (by decide)⟩

/-- C10: after `pop AF`, the low nibble of `f` is zero for every CPU state
(every possible stack content), because the popped word is masked with
0xFFF0 before `set_af`. -/
theorem C10_pop_af_low_nibble (cpu : Cpu) : cpu.pop_af.reg.f &&& 0xF = 0 := by
  unfold Cpu.pop_af Cpu.pop_stack Register.set_af
  simp [Nat.and_assoc, show (65520 : Nat) &&& (255 &&& 15) = 0 from rfl]

set_option maxRecDepth 8000 in
/-- C7: failing-input evaluation of the 0xFF46 DMA copy.  With WRAM holding
0xAA at 0xC100 and 0xBB at 0xC101, writing 0xC1 to 0xFF46 fills OAM[0] with
the byte at source+1 (0xBB), not the byte at source+0 (0xAA): the loop reads
`source_addr + 1` on every iteration instead of `source_addr + i`. -/
theorem C7_dma_copies_wrong_byte :
    ({ Bus.new Cartridge.new with
        working_ram := fun i => if i = 0x100 then 0xAA else if i = 0x101 then 0xBB else 0 }.write_byte 0xFF46 0xC1).oam 0 = 0xBB ∧
    ({ Bus.new Cartridge.new with
        working_ram := fun i => if i = 0x100 then 0xAA else if i = 0x101 then 0xBB else 0 } : Bus).read_byte (0xC1 <<< 8 + 0) = 0xAA ∧
    (0xBB : Nat) ≠ 0xAA := by
  refine ⟨rfl, rfl, by decide⟩

/-! ### Display `ly`/vblank characterization (C6) -/

theorem render_scanline_fields (q : Ppu) :
    (q.render_scanline).ly = q.ly ∧ (q.render_scanline).ly_cycles = q.ly_cycles ∧
    (q.render_scanline).lyc = q.lyc ∧ (q.render_scanline).stat = q.stat ∧
    (q.render_scanline).lcdc = q.lcdc ∧ (q.render_scanline).mode = q.mode :=
  ⟨rfl, rfl, rfl, rfl, rfl, rfl⟩

theorem maybe_render_fields (q : Ppu) :
    (q.maybe_render).ly = q.ly ∧ (q.maybe_render).ly_cycles = q.ly_cycles ∧
    (q.maybe_render).lyc = q.lyc ∧ (q.maybe_render).stat = q.stat ∧
    (q.maybe_render).lcdc = q.lcdc := by
  unfold Ppu.maybe_render
  split
  · exact ⟨rfl, rfl, rfl, rfl, rfl⟩
  · exact ⟨rfl, rfl, rfl, rfl, rfl⟩

theorem or_two_and_one (x : Nat) : (x ||| 2) &&& 1 = x &&& 1 := by
  rw [Nat.and_distrib_right]
  simp

theorem or_one_and_one (x : Nat) : (x ||| 1) &&& 1 = 1 := by
  rw [Nat.and_distrib_right, Nat.and_one_is_mod]
  rcases Nat.mod_two_eq_zero_or_one x with h | h <;> rw [h] <;> decide

theorem ly_step_spec (q : Ppu) (m : Nat) (hly : q.ly < 154) :
    (Ppu.ly_step q m).1.ly = (q.ly + 1) % 154 ∧
    (Ppu.ly_step q m).1.ly_cycles = q.ly_cycles - 456 ∧
    (Ppu.ly_step q m).1.lyc = q.lyc ∧
    (Ppu.ly_step q m).1.lcdc = q.lcdc ∧
    ((Ppu.ly_step q m).2 &&& 1 ≠ 0 ↔ (m &&& 1 ≠ 0 ∨ (q.ly + 1) % 154 = 144)) := by
  have hmr := maybe_render_fields { q with ly_cycles := q.ly_cycles - 456 }
  obtain ⟨e1, e2, e3, e4, e5⟩ := hmr
  simp only [Ppu.ly_step, e1, e2, e3, e4, e5]
  have hq : (q.ly + 1) % 256 = q.ly + 1 := Nat.mod_eq_of_lt (by omega)
  rw [hq]
  have hly2 : (if q.ly + 1 > 153 then 0 else q.ly + 1) = (q.ly + 1) % 154 := by
    split <;> omega
  rw [hly2]
  refine ⟨rfl, trivial, trivial, trivial, ?_⟩
  by_cases h144 : (q.ly + 1) % 154 = 144 <;>
    [simp only [h144, if_pos rfl]; rw [if_neg h144]] <;>
    split <;> simp [or_two_and_one, or_one_and_one, h144]

theorem ly_loop_lt (q : Ppu) (m : Nat) (h : q.ly_cycles < 456) :
    Ppu.ly_loop q m = (q, m) := by
  rw [Ppu.ly_loop]
  simp [Nat.not_le.mpr h]

theorem ly_loop_once (q : Ppu) (m : Nat) (h1 : 456 ≤ q.ly_cycles)
    (h2 : q.ly_cycles < 912) (hly : q.ly < 154) :
    (Ppu.ly_loop q m).1.ly = (q.ly + 1) % 154 ∧
    (Ppu.ly_loop q m).1.ly_cycles = q.ly_cycles - 456 ∧
    (Ppu.ly_loop q m).1.lyc = q.lyc ∧
    (Ppu.ly_loop q m).1.lcdc = q.lcdc ∧
    ((Ppu.ly_loop q m).2 &&& 1 ≠ 0 ↔ (m &&& 1 ≠ 0 ∨ (q.ly + 1) % 154 = 144)) := by
  obtain ⟨s1, s2, s3, s4, s5⟩ := ly_step_spec q m hly
  rw [Ppu.ly_loop]
  rw [dif_pos h1]
  rw [ly_loop_lt _ _ (by rw [s2]; omega)]
  exact ⟨s1, s2, s3, s4, s5⟩

theorem or_two_mod_two (x : Nat) : (x ||| 2) % 2 = x % 2 := by
  rw [← Nat.and_one_is_mod, ← Nat.and_one_is_mod, or_two_and_one]

theorem mode_update_fields (p : Ppu) (mb k : Nat) :
    (Ppu.mode_update p mb k).1.ly = p.ly ∧
    (Ppu.mode_update p mb k).1.ly_cycles = p.ly_cycles ∧
    (Ppu.mode_update p mb k).1.lyc = p.lyc ∧
    (Ppu.mode_update p mb k).1.lcdc = p.lcdc ∧
    (Ppu.mode_update p mb k).2 &&& 1 = k &&& 1 := by
  simp only [Ppu.mode_update]
  split_ifs <;> simp [or_two_mod_two, Nat.and_one_is_mod]

theorem update_ly_spec (p : Ppu) (c : Nat) (hly : p.ly < 154) (hcyc : p.ly_cycles < 456)
    (hlcd : p.lcdc &&& 0x80 ≠ 0) (hc : c < 456) :
    (p.update_ly c).1.ly = (p.ly + (p.ly_cycles + c) / 456) % 154 ∧
    (p.update_ly c).1.ly_cycles = (p.ly_cycles + c) % 456 ∧
    (p.update_ly c).1.lyc = p.lyc ∧
    (p.update_ly c).1.lcdc = p.lcdc ∧
    ((p.update_ly c).2 &&& 1 ≠ 0 ↔ (456 ≤ p.ly_cycles + c ∧ (p.ly + 1) % 154 = 144)) := by
  obtain ⟨m1, m2, m3, m4, m5⟩ :=
    mode_update_fields { p with ly_cycles := p.ly_cycles + c } p.mode 0
  have e_ly : (Ppu.mode_update { p with ly_cycles := p.ly_cycles + c } p.mode 0).1.ly = p.ly := by
    rw [m1]
  have e_cyc : (Ppu.mode_update { p with ly_cycles := p.ly_cycles + c } p.mode 0).1.ly_cycles =
      p.ly_cycles + c := by
    rw [m2]
  have e_lyc : (Ppu.mode_update { p with ly_cycles := p.ly_cycles + c } p.mode 0).1.lyc =
      p.lyc := by
    rw [m3]
  have e_lcdc : (Ppu.mode_update { p with ly_cycles := p.ly_cycles + c } p.mode 0).1.lcdc =
      p.lcdc := by
    rw [m4]
  have e_m : (Ppu.mode_update { p with ly_cycles := p.ly_cycles + c } p.mode 0).2 &&& 1 = 0 := by
    rw [m5]
    decide
  simp only [Ppu.update_ly]
  rw [if_neg hlcd]
  by_cases hful : 456 ≤ p.ly_cycles + c
  · obtain ⟨l1, l2, l3, l4, l5⟩ :=
      ly_loop_once (Ppu.mode_update { p with ly_cycles := p.ly_cycles + c } p.mode 0).1
        (Ppu.mode_update { p with ly_cycles := p.ly_cycles + c } p.mode 0).2
        (by rw [e_cyc]; exact hful) (by rw [e_cyc]; omega) (by rw [e_ly]; exact hly)
    have hdiv : (p.ly_cycles + c) / 456 = 1 := by omega
    have hmod : p.ly_cycles + c - 456 = (p.ly_cycles + c) % 456 := by omega
    refine ⟨?_, ?_, ?_, ?_, ?_⟩
    · rw [l1, e_ly, hdiv]
    · rw [l2, e_cyc, hmod]
    · rw [l3, e_lyc]
    · rw [l4, e_lcdc]
    · rw [l5, e_ly]
      simp [e_m, hful]
  · rw [ly_loop_lt _ _ (by rw [e_cyc]; omega)]
    have hdiv : (p.ly_cycles + c) / 456 = 0 := by omega
    refine ⟨?_, ?_, ?_, ?_, ?_⟩
    · rw [e_ly, hdiv]
      omega
    · rw [e_cyc]
      omega
    · exact e_lyc
    · exact e_lcdc
    · rw [show (Ppu.mode_update { p with ly_cycles := p.ly_cycles + c } p.mode 0).2 &&& 1 = 0 from e_m]
      simp [hful]

theorem count_split (L N₁ : Nat) :
    (if (L + 1) % 154 = 144 then 1 else 0) +
      (List.range N₁).countP (fun j => decide (((L + 1) % 154 + j + 1) % 154 = 144)) =
    (List.range (N₁ + 1)).countP (fun j => decide ((L + j + 1) % 154 = 144)) := by
  rw [List.range_succ_eq_map, List.countP_cons, List.countP_map]
  have hcong : (List.range N₁).countP (fun j => decide (((L + 1) % 154 + j + 1) % 154 = 144)) =
      (List.range N₁).countP ((fun j => decide ((L + j + 1) % 154 = 144)) ∘ Nat.succ) := by
    apply List.countP_congr
    intro a ha
    simp only [Function.comp, decide_eq_true_eq]
    constructor <;> intro h <;> omega
  rw [hcong]
  by_cases h : (L + 1) % 154 = 144 <;> simp [h] <;> omega

theorem run_ly_spec (cs : List Nat) (p : Ppu)
    (hly : p.ly < 154) (hcyc : p.ly_cycles < 456) (hlcd : p.lcdc &&& 0x80 ≠ 0)
    (hcs : ∀ c ∈ cs, c < 456) :
    (p.run_ly cs).1.ly = (p.ly + (p.ly_cycles + cs.sum) / 456) % 154 ∧
    (p.run_ly cs).1.ly_cycles = (p.ly_cycles + cs.sum) % 456 ∧
    (p.run_ly cs).1.lcdc = p.lcdc ∧
    (p.run_ly cs).2 =
      (List.range ((p.ly_cycles + cs.sum) / 456)).countP
        (fun j => decide ((p.ly + j + 1) % 154 = 144)) := by
  induction cs generalizing p with
  | nil =>
      have h0 : p.ly_cycles / 456 = 0 := by omega
      refine ⟨?_, ?_, rfl, ?_⟩
      · simp [Ppu.run_ly]
        omega
      · simp [Ppu.run_ly]
        omega
      · simp [Ppu.run_ly, h0]
  | cons c cs ih =>
      obtain ⟨u1, u2, u3, u4, u5⟩ :=
        update_ly_spec p c hly hcyc hlcd (hcs c (List.mem_cons_self c cs))
      have hly2 : (p.update_ly c).1.ly < 154 := by
        rw [u1]
        exact Nat.mod_lt _ (by norm_num)
      have hcyc2 : (p.update_ly c).1.ly_cycles < 456 := by
        rw [u2]
        exact Nat.mod_lt _ (by norm_num)
      have hlcd2 : (p.update_ly c).1.lcdc &&& 0x80 ≠ 0 := by rw [u4]; exact hlcd
      obtain ⟨i1, i2, i3, i4⟩ :=
        ih (p.update_ly c).1 hly2 hcyc2 hlcd2 (fun d hd => hcs d (List.mem_cons_of_mem c hd))
      have hc : c < 456 := hcs c (List.mem_cons_self c cs)
      have hsum : (c :: cs).sum = c + cs.sum := List.sum_cons
      refine ⟨?_, ?_, ?_, ?_⟩
      · show (Ppu.run_ly (p.update_ly c).1 cs).1.ly = _
        rw [i1, u1, u2, hsum, Nat.mod_add_mod]
        omega
      · show (Ppu.run_ly (p.update_ly c).1 cs).1.ly_cycles = _
        rw [i2, u2, hsum]
        omega
      · show (Ppu.run_ly (p.update_ly c).1 cs).1.lcdc = _
        rw [i3, u4]
      · show (if (p.update_ly c).2 &&& 1 ≠ 0 then 1 else 0) +
            (Ppu.run_ly (p.update_ly c).1 cs).2 = _
        rw [i4, u1, u2, hsum]
        by_cases hful : 456 ≤ p.ly_cycles + c
        · have hn1 : (p.ly_cycles + c) / 456 = 1 := by omega
          have hN : (p.ly_cycles + (c + cs.sum)) / 456 =
              ((p.ly_cycles + c) % 456 + cs.sum) / 456 + 1 := by omega
          have hs : (if (p.update_ly c).2 &&& 1 ≠ 0 then 1 else 0) =
              (if (p.ly + 1) % 154 = 144 then 1 else 0) := by
            rcases Decidable.em ((p.ly + 1) % 154 = 144) with h144 | h144
            · rw [if_pos h144, if_pos (u5.mpr ⟨hful, h144⟩)]
            · rw [if_neg h144, if_neg (fun hcon => h144 (u5.mp hcon).2)]
          rw [hs, hn1, hN]
          exact count_split p.ly _
        · have hn0 : (p.ly_cycles + c) / 456 = 0 := by omega
          have hNeq : (p.ly_cycles + (c + cs.sum)) / 456 =
              ((p.ly_cycles + c) % 456 + cs.sum) / 456 := by omega
          have hz : (if (p.update_ly c).2 &&& 1 ≠ 0 then 1 else 0) = 0 := by
            rw [if_neg (fun hcon => hful (u5.mp hcon).1)]
          rw [hz, hn0, hNeq, Nat.zero_add]
          apply List.countP_congr
          intro a ha
          simp only [decide_eq_true_eq]
          constructor <;> intro h <;> omega

theorem countP_range_frame (L : Nat) (hL : L < 154) :
    (List.range 154).countP (fun j => decide ((L + j + 1) % 154 = 144)) = 1 := by
  have hj0 : (143 + 154 - L) % 154 < 154 := Nat.mod_lt _ (by norm_num)
  have hcong : (List.range 154).countP (fun j => decide ((L + j + 1) % 154 = 144)) =
      (List.range 154).countP (fun j => j == (143 + 154 - L) % 154) := by
    apply List.countP_congr
    intro a ha
    rw [List.mem_range] at ha
    simp only [decide_eq_true_eq, beq_iff_eq]
    constructor <;> intro h <;> omega
  rw [hcong]
  exact List.count_eq_one_of_mem (List.nodup_range 154) (List.mem_range.mpr hj0)

/-- C6: with the LCD enabled, over any sequence of display-update steps of
less than 456 cycles each (every `run_cycle` advance is at most 255), `ly`
advances by exactly one for every 456 accumulated cycles, wrapping 153→0
(arithmetic mod 154), `ly_cycles` keeps the remainder, and the vblank
request (bitmask bit 0) is produced exactly at those increments that make
`ly` equal 144 — hence exactly once per full 154-line frame. -/
theorem C6_ly_vblank (cs : List Nat) (p : Ppu)
    (hly : p.ly < 154) (hcyc : p.ly_cycles < 456) (hlcd : p.lcdc &&& 0x80 ≠ 0)
    (hcs : ∀ c ∈ cs, c < 456) :
    (p.run_ly cs).1.ly = (p.ly + (p.ly_cycles + cs.sum) / 456) % 154 ∧
    (p.run_ly cs).1.ly_cycles = (p.ly_cycles + cs.sum) % 456 ∧
    (p.run_ly cs).2 =
      (List.range ((p.ly_cycles + cs.sum) / 456)).countP
        (fun j => decide ((p.ly + j + 1) % 154 = 144)) ∧
    ((p.ly_cycles + cs.sum) / 456 = 154 → (p.run_ly cs).2 = 1) := by
  obtain ⟨h1, h2, h3, h4⟩ := run_ly_spec cs p hly hcyc hlcd hcs
  refine ⟨h1, h2, h4, ?_⟩
  intro hN
  rw [h4, hN]
  exact countP_range_frame p.ly hly

/-- Witness for C6: the reset PPU stepped twice by 228 cycles (one full
456-cycle scanline) advances `ly` from 0 to 1 with no vblank request. -/
theorem C6_ly_vblank_witness :
    Ppu.new.ly < 154 ∧ Ppu.new.ly_cycles < 456 ∧ Ppu.new.lcdc &&& 0x80 ≠ 0 ∧
    (∀ c ∈ [228, 228], c < 456) ∧
    ((Ppu.new.run_ly [228, 228]).1.ly =
        (Ppu.new.ly + (Ppu.new.ly_cycles + [228, 228].sum) / 456) % 154 ∧
      (Ppu.new.run_ly [228, 228]).1.ly_cycles =
        (Ppu.new.ly_cycles + [228, 228].sum) % 456 ∧
      (Ppu.new.run_ly [228, 228]).2 =
        (List.range ((Ppu.new.ly_cycles + [228, 228].sum) / 456)).countP
          (fun j => decide ((Ppu.new.ly + j + 1) % 154 = 144)) ∧
      ((Ppu.new.ly_cycles + [228, 228].sum) / 456 = 154 →
        (Ppu.new.run_ly [228, 228]).2 = 1)) :=
  ⟨by decide, by decide, by decide, by decide,
    C6_ly_vblank [228, 228] Ppu.new (by decide) (by decide) (by decide) (by decide)⟩

/-! ### Bus lemmas for interrupt dispatch (C2, C5) -/

theorem read_ie (b : Bus) : b.read_byte 0xFFFF = b.ie &&& 0x1F := rfl

theorem read_if (b : Bus) : b.read_byte 0xFF0F = b.if_ &&& 0x1F := rfl

theorem write_if (b : Bus) (v : Nat) :
    b.write_byte 0xFF0F v = { b with if_ := v &&& 0x1F } := rfl

theorem and_1F_of_lt (x : Nat) (h : x < 32) : x &&& 0x1F = x := by
  have h5 := Nat.and_pow_two_sub_one_of_lt_two_pow (x := x) (n := 5) (by norm_num at h ⊢; omega)
  norm_num at h5
  exact h5

theorem and_1FFF_mod (x : Nat) : x &&& 0x1FFF = x % 0x2000 := by
  have h := Nat.and_pow_two_sub_one_eq_mod x 13
  norm_num at h
  exact h

theorem wram_write_fields (b : Bus) (addr v : Nat)
    (h1 : 0xC000 ≤ addr) (h2 : addr ≤ 0xDFFF) :
    (b.write_byte addr v).if_ = b.if_ ∧ (b.write_byte addr v).ie = b.ie := by
  unfold Bus.write_byte
  rw [if_neg (by omega), if_neg (by omega), if_neg (by omega), if_pos ⟨h1, h2⟩]
  exact ⟨rfl, rfl⟩

theorem wram_read (b : Bus) (a : Nat) (g1 : 0xC000 ≤ a) (g2 : a ≤ 0xDFFF) :
    b.read_byte a = b.working_ram (a &&& 0x1FFF) := by
  unfold Bus.read_byte
  rw [if_neg (by omega), if_neg (by omega), if_neg (by omega), if_pos ⟨g1, g2⟩]

theorem wram_write_wram (b : Bus) (addr v : Nat)
    (h1 : 0xC000 ≤ addr) (h2 : addr ≤ 0xDFFF) :
    (b.write_byte addr v).working_ram =
      (if addr + 0x2000 ≤ 0xFDFF then
        fupd (fupd b.working_ram (addr &&& 0x1FFF) v) ((addr + 0x2000) &&& 0x1FFF) v
       else fupd b.working_ram (addr &&& 0x1FFF) v) := by
  unfold Bus.write_byte
  rw [if_neg (by omega), if_neg (by omega), if_neg (by omega), if_pos ⟨h1, h2⟩]

theorem wram_write_read (b : Bus) (addr a v : Nat)
    (h1 : 0xC000 ≤ addr) (h2 : addr ≤ 0xDFFF)
    (g1 : 0xC000 ≤ a) (g2 : a ≤ 0xDFFF) :
    (b.write_byte addr v).read_byte a = if a = addr then v else b.read_byte a := by
  rw [wram_read (b.write_byte addr v) a g1 g2, wram_write_wram b addr v h1 h2]
  have hkey : (addr + 0x2000) &&& 0x1FFF = addr &&& 0x1FFF := by
    rw [and_1FFF_mod, and_1FFF_mod]
    omega
  rw [hkey]
  by_cases he : a = addr
  · subst he
    split <;> simp [fupd]
  · have hne : a &&& 0x1FFF ≠ addr &&& 0x1FFF := by
      rw [and_1FFF_mod, and_1FFF_mod]
      omega
    rw [if_neg he, wram_read b a g1 g2]
    split <;> simp [fupd, hne]

theorem wram_write_word_spec (b : Bus) (addr v : Nat)
    (h1 : 0xC000 ≤ addr) (h2 : addr + 1 ≤ 0xDFFF) (hv : v < 65536) :
    (b.write_word addr v).read_word addr = v ∧
    (b.write_word addr v).if_ = b.if_ ∧
    (b.write_word addr v).ie = b.ie := by
  unfold Bus.write_word Bus.read_word
  have ha1 : (addr + 1) % 65536 = addr + 1 := by omega
  rw [ha1]
  have r1 : ((b.write_byte addr (v &&& 0xFF)).write_byte (addr + 1)
      ((v >>> 8) % 256)).read_byte addr = v &&& 0xFF := by
    rw [wram_write_read _ _ _ _ (by omega) (by omega) h1 (by omega), if_neg (by omega),
        wram_write_read _ _ _ _ h1 (by omega) h1 (by omega), if_pos rfl]
  have r2 : ((b.write_byte addr (v &&& 0xFF)).write_byte (addr + 1)
      ((v >>> 8) % 256)).read_byte (addr + 1) = (v >>> 8) % 256 := by
    rw [wram_write_read _ _ _ _ (by omega) (by omega) (by omega) (by omega), if_pos rfl]
  refine ⟨?_, ?_, ?_⟩
  · rw [r1, r2]
    have e1 : v &&& 0xFF = v % 256 := low_byte_and v
    have e2 : (v >>> 8) % 256 = v / 256 := by
      rw [Nat.shiftRight_eq_div_pow]
      omega
    rw [e1, e2, Nat.shiftLeft_eq]
    have hb : v % 2 ^ 8 < 2 ^ 8 := Nat.mod_lt _ (by norm_num)
    rw [Nat.or_comm, show (256 : Nat) = 2 ^ 8 from by norm_num, Nat.mul_comm,
        ← Nat.mul_add_lt_is_or hb]
    omega
  · rw [(wram_write_fields _ _ _ (by omega) (by omega)).1,
        (wram_write_fields _ _ _ h1 (by omega)).1]
  · rw [(wram_write_fields _ _ _ (by omega) (by omega)).2,
        (wram_write_fields _ _ _ h1 (by omega)).2]

theorem pending_bits_cover (x : Nat) (hx : x < 32) (h0 : x ≠ 0)
    (b1 : ¬ x &&& 0x01 ≠ 0) (b2 : ¬ x &&& 0x02 ≠ 0) (b3 : ¬ x &&& 0x04 ≠ 0)
    (b4 : ¬ x &&& 0x08 ≠ 0) : x &&& 0x10 ≠ 0 := by
  interval_cases x <;> simp_all

set_option maxRecDepth 4000 in
theorem handle_interrupts_spec (cpu : Cpu) (hime : cpu.ime = true)
    (hie : cpu.bus.ie < 32) (hif : cpu.bus.if_ < 32)
    (hpend : cpu.bus.ie &&& cpu.bus.if_ ≠ 0) :
    cpu.handle_interrupts true =
      ({ cpu with
          halted := false
          ime := false
          enable_ime_next := false
          m := 5
          reg := { cpu.reg with
                    sp := (cpu.reg.sp + 65536 - 2) % 65536,
                    pc := if cpu.bus.ie &&& cpu.bus.if_ &&& 0x01 ≠ 0 then 0x40
                      else if cpu.bus.ie &&& cpu.bus.if_ &&& 0x02 ≠ 0 then 0x48
                      else if cpu.bus.ie &&& cpu.bus.if_ &&& 0x04 ≠ 0 then 0x50
                      else if cpu.bus.ie &&& cpu.bus.if_ &&& 0x08 ≠ 0 then 0x58
                      else 0x60 }
          bus := Bus.write_word
            (cpu.bus.write_byte 0xFF0F (cpu.bus.if_ &&&
              (0xFF ^^^ (if cpu.bus.ie &&& cpu.bus.if_ &&& 0x01 ≠ 0 then 0x01
                else if cpu.bus.ie &&& cpu.bus.if_ &&& 0x02 ≠ 0 then 0x02
                else if cpu.bus.ie &&& cpu.bus.if_ &&& 0x04 ≠ 0 then 0x04
                else if cpu.bus.ie &&& cpu.bus.if_ &&& 0x08 ≠ 0 then 0x08
                else 0x10))))
            ((cpu.reg.sp + 65536 - 2) % 65536) cpu.reg.pc }, true) := by
  have hi1 : (if cpu.ime then false else cpu.ime) = false := by rw [if_pos hime]
  have hi2 : (if cpu.ime then false else cpu.enable_ime_next) = false := by rw [if_pos hime]
  simp only [Cpu.handle_interrupts, read_ie, read_if, and_1F_of_lt _ hie, and_1F_of_lt _ hif,
    hi1, hi2]
  rw [if_pos hpend]
  by_cases b1 : cpu.bus.ie &&& cpu.bus.if_ &&& 0x01 ≠ 0
  · simp only [if_pos b1, eq_self_iff_true, if_true]
  · simp only [if_neg b1]
    by_cases b2 : cpu.bus.ie &&& cpu.bus.if_ &&& 0x02 ≠ 0
    · simp only [if_pos b2, eq_self_iff_true, if_true]
    · simp only [if_neg b2]
      by_cases b3 : cpu.bus.ie &&& cpu.bus.if_ &&& 0x04 ≠ 0
      · simp only [if_pos b3, eq_self_iff_true, if_true]
      · simp only [if_neg b3]
        by_cases b4 : cpu.bus.ie &&& cpu.bus.if_ &&& 0x08 ≠ 0
        · simp only [if_pos b4, eq_self_iff_true, if_true]
        · simp only [if_neg b4]
          have b5 := pending_bits_cover (cpu.bus.ie &&& cpu.bus.if_)
            (lt_of_le_of_lt Nat.and_le_left hie) hpend b1 b2 b3 b4
          simp only [if_pos b5, eq_self_iff_true, if_true]

theorem run_cycle_interrupt (decode_execute : Cpu → Cpu) (cpu : Cpu)
    (hhalt : cpu.halted = false) (hstop : cpu.stopped = false) (hime : cpu.ime = true)
    (hie : cpu.bus.ie < 32) (hif : cpu.bus.if_ < 32)
    (hpend : cpu.bus.ie &&& cpu.bus.if_ ≠ 0) :
    Cpu.run_cycle decode_execute cpu =
      (Cpu.handle_interrupts
        (if cpu.enable_ime_next then { cpu with ime := true, enable_ime_next := false }
         else cpu) true).1 := by
  by_cases hen : cpu.enable_ime_next
  · have hspec := handle_interrupts_spec
      { cpu with ime := true, enable_ime_next := false } rfl hie hif hpend
    simp only [Cpu.run_cycle, if_pos hen]
    rw [if_neg (by show ¬ (cpu.halted = true); rw [hhalt]; exact Bool.false_ne_true),
        if_neg (by show ¬ (cpu.stopped = true); rw [hstop]; exact Bool.false_ne_true)]
    simp only [if_true]
    rw [hspec]
    simp only [if_true]
  · have hspec := handle_interrupts_spec cpu hime hie hif hpend
    simp only [Cpu.run_cycle, if_neg hen]
    rw [if_neg (by show ¬ (cpu.halted = true); rw [hhalt]; exact Bool.false_ne_true),
        if_neg (by show ¬ (cpu.stopped = true); rw [hstop]; exact Bool.false_ne_true),
        if_pos hime]
    rw [hspec]
    simp only [if_true]

set_option maxRecDepth 8000 in
/-- C2: with the processor running (not halted, not stopped), `ime` set and
`IE & IF` non-zero (both registers 5-bit as the hardware keeps them), and the
stack inside work RAM, `run_cycle` services the interrupt before any
instruction execution: it clears `ime`, clears exactly the highest-priority
pending `IF` bit in the order vblank(0x01) > lcd-status(0x02) > timer(0x04)
> serial(0x08) > input(0x10), pushes `pc` onto the stack, jumps to that
bit's vector (0x40/0x48/0x50/0x58/0x60), charges 5 cycles, and the result
does not depend on the decode/execute step at all. -/
theorem C2_interrupt_dispatch (decode_execute : Cpu → Cpu) (cpu : Cpu)
    (hhalt : cpu.halted = false) (hstop : cpu.stopped = false) (hime : cpu.ime = true)
    (hie : cpu.bus.ie < 32) (hif : cpu.bus.if_ < 32)
    (hpend : cpu.bus.ie &&& cpu.bus.if_ ≠ 0)
    (hsp1 : 0xC002 ≤ cpu.reg.sp) (hsp2 : cpu.reg.sp ≤ 0xE000) (hpc : cpu.reg.pc < 65536) :
    (Cpu.run_cycle decode_execute cpu).ime = false ∧
    (Cpu.run_cycle decode_execute cpu).bus.if_ =
      cpu.bus.if_ &&& (0xFF ^^^ (if cpu.bus.ie &&& cpu.bus.if_ &&& 0x01 ≠ 0 then 0x01
        else if cpu.bus.ie &&& cpu.bus.if_ &&& 0x02 ≠ 0 then 0x02
        else if cpu.bus.ie &&& cpu.bus.if_ &&& 0x04 ≠ 0 then 0x04
        else if cpu.bus.ie &&& cpu.bus.if_ &&& 0x08 ≠ 0 then 0x08
        else 0x10)) ∧
    (Cpu.run_cycle decode_execute cpu).reg.sp = cpu.reg.sp - 2 ∧
    (Cpu.run_cycle decode_execute cpu).bus.read_word (cpu.reg.sp - 2) = cpu.reg.pc ∧
    (Cpu.run_cycle decode_execute cpu).reg.pc =
      (if cpu.bus.ie &&& cpu.bus.if_ &&& 0x01 ≠ 0 then 0x40
        else if cpu.bus.ie &&& cpu.bus.if_ &&& 0x02 ≠ 0 then 0x48
        else if cpu.bus.ie &&& cpu.bus.if_ &&& 0x04 ≠ 0 then 0x50
        else if cpu.bus.ie &&& cpu.bus.if_ &&& 0x08 ≠ 0 then 0x58
        else 0x60) ∧
    (Cpu.run_cycle decode_execute cpu).m = 5 ∧
    Cpu.run_cycle decode_execute cpu = Cpu.run_cycle (fun c => c) cpu := by
  have hrc := run_cycle_interrupt decode_execute cpu hhalt hstop hime hie hif hpend
  have hrc2 := run_cycle_interrupt (fun c => c) cpu hhalt hstop hime hie hif hpend
  have hsp' : (cpu.reg.sp + 65536 - 2) % 65536 = cpu.reg.sp - 2 := by omega
  have hbit : (cpu.bus.if_ &&& (0xFF ^^^ (if cpu.bus.ie &&& cpu.bus.if_ &&& 0x01 ≠ 0 then 0x01
      else if cpu.bus.ie &&& cpu.bus.if_ &&& 0x02 ≠ 0 then 0x02
      else if cpu.bus.ie &&& cpu.bus.if_ &&& 0x04 ≠ 0 then 0x04
      else if cpu.bus.ie &&& cpu.bus.if_ &&& 0x08 ≠ 0 then 0x08
      else 0x10))) &&& 0x1F =
      cpu.bus.if_ &&& (0xFF ^^^ (if cpu.bus.ie &&& cpu.bus.if_ &&& 0x01 ≠ 0 then 0x01
        else if cpu.bus.ie &&& cpu.bus.if_ &&& 0x02 ≠ 0 then 0x02
        else if cpu.bus.ie &&& cpu.bus.if_ &&& 0x04 ≠ 0 then 0x04
        else if cpu.bus.ie &&& cpu.bus.if_ &&& 0x08 ≠ 0 then 0x08
        else 0x10)) :=
    and_1F_of_lt _ (lt_of_le_of_lt Nat.and_le_left hif)
  by_cases hen : cpu.enable_ime_next
  · have hspec := handle_interrupts_spec
      { cpu with ime := true, enable_ime_next := false } rfl hie hif hpend
    rw [if_pos hen] at hrc hrc2
    rw [hrc, hrc2, hspec]
    obtain ⟨w1, w2, w3⟩ := wram_write_word_spec
      (cpu.bus.write_byte 0xFF0F (cpu.bus.if_ &&&
        (0xFF ^^^ (if cpu.bus.ie &&& cpu.bus.if_ &&& 0x01 ≠ 0 then 0x01
          else if cpu.bus.ie &&& cpu.bus.if_ &&& 0x02 ≠ 0 then 0x02
          else if cpu.bus.ie &&& cpu.bus.if_ &&& 0x04 ≠ 0 then 0x04
          else if cpu.bus.ie &&& cpu.bus.if_ &&& 0x08 ≠ 0 then 0x08
          else 0x10))))
      (cpu.reg.sp - 2) cpu.reg.pc (by omega) (by omega) hpc
    refine ⟨rfl, ?_, ?_, ?_, rfl, rfl, rfl⟩
    · rw [hsp', w2, write_if]
      exact hbit
    · exact hsp'
    · rw [hsp']
      exact w1
  · have hspec := handle_interrupts_spec cpu hime hie hif hpend
    rw [if_neg hen] at hrc hrc2
    rw [hrc, hrc2, hspec]
    obtain ⟨w1, w2, w3⟩ := wram_write_word_spec
      (cpu.bus.write_byte 0xFF0F (cpu.bus.if_ &&&
        (0xFF ^^^ (if cpu.bus.ie &&& cpu.bus.if_ &&& 0x01 ≠ 0 then 0x01
          else if cpu.bus.ie &&& cpu.bus.if_ &&& 0x02 ≠ 0 then 0x02
          else if cpu.bus.ie &&& cpu.bus.if_ &&& 0x04 ≠ 0 then 0x04
          else if cpu.bus.ie &&& cpu.bus.if_ &&& 0x08 ≠ 0 then 0x08
          else 0x10))))
      (cpu.reg.sp - 2) cpu.reg.pc (by omega) (by omega) hpc
    refine ⟨rfl, ?_, ?_, ?_, rfl, rfl, rfl⟩
    · rw [hsp', w2, write_if]
      exact hbit
    · exact hsp'
    · rw [hsp']
      exact w1

/-- Witness for C2 at `IE = IF = 0x1F`: bit 0 (vblank) is serviced, only
that bit of `IF` is cleared (0x1F → 0x1E) and `pc` becomes 0x40. -/
theorem C2_interrupt_dispatch_witness :
    pending_cpu.halted = false ∧ pending_cpu.stopped = false ∧ pending_cpu.ime = true ∧
    pending_cpu.bus.ie < 32 ∧ pending_cpu.bus.if_ < 32 ∧
    pending_cpu.bus.ie &&& pending_cpu.bus.if_ ≠ 0 ∧
    0xC002 ≤ pending_cpu.reg.sp ∧ pending_cpu.reg.sp ≤ 0xE000 ∧
    pending_cpu.reg.pc < 65536 ∧
    (Cpu.run_cycle (fun c => c) pending_cpu).bus.if_ = 0x1E ∧
    (Cpu.run_cycle (fun c => c) pending_cpu).reg.pc = 0x40 ∧
    ((Cpu.run_cycle (fun c => c) pending_cpu).ime = false ∧
     (Cpu.run_cycle (fun c => c) pending_cpu).bus.if_ =
       pending_cpu.bus.if_ &&&
         (0xFF ^^^ (if pending_cpu.bus.ie &&& pending_cpu.bus.if_ &&& 0x01 ≠ 0 then 0x01
           else if pending_cpu.bus.ie &&& pending_cpu.bus.if_ &&& 0x02 ≠ 0 then 0x02
           else if pending_cpu.bus.ie &&& pending_cpu.bus.if_ &&& 0x04 ≠ 0 then 0x04
           else if pending_cpu.bus.ie &&& pending_cpu.bus.if_ &&& 0x08 ≠ 0 then 0x08
           else 0x10)) ∧
     (Cpu.run_cycle (fun c => c) pending_cpu).reg.sp = pending_cpu.reg.sp - 2 ∧
     (Cpu.run_cycle (fun c => c) pending_cpu).bus.read_word (pending_cpu.reg.sp - 2) =
       pending_cpu.reg.pc ∧
     (Cpu.run_cycle (fun c => c) pending_cpu).reg.pc =
       (if pending_cpu.bus.ie &&& pending_cpu.bus.if_ &&& 0x01 ≠ 0 then 0x40
         else if pending_cpu.bus.ie &&& pending_cpu.bus.if_ &&& 0x02 ≠ 0 then 0x48
         else if pending_cpu.bus.ie &&& pending_cpu.bus.if_ &&& 0x04 ≠ 0 then 0x50
         else if pending_cpu.bus.ie &&& pending_cpu.bus.if_ &&& 0x08 ≠ 0 then 0x58
         else 0x60) ∧
     (Cpu.run_cycle (fun c => c) pending_cpu).m = 5 ∧
     Cpu.run_cycle (fun c => c) pending_cpu = Cpu.run_cycle (fun c => c) pending_cpu) :=
  ⟨by decide, by decide, by decide, by decide, by decide, by decide, by decide, by decide,
    by decide, by decide, by decide,
    C2_interrupt_dispatch (fun c => c) pending_cpu (by decide) (by decide) (by decide)
      (by decide) (by decide) (by decide) (by decide) (by decide) (by decide)⟩

/-- C5: failing-input evaluation.  `ei_pending_cpu` is the state right after
EI retired (enable_ime_next set, ime still clear) with vblank pending.  The
very next `run_cycle` call processes the delayed-EI latch first and then
services the interrupt — jumping to 0x40 with cost 5 and never invoking the
decode/execute step — so an interrupt fires between EI and the following
instruction, which the claim forbids. -/
theorem C5_ei_interrupt_before_next_instruction (decode_execute : Cpu → Cpu) :
    ei_pending_cpu.enable_ime_next = true ∧
    ei_pending_cpu.ime = false ∧
    (Cpu.run_cycle decode_execute ei_pending_cpu).reg.pc = 0x40 ∧
    (Cpu.run_cycle decode_execute ei_pending_cpu).bus.if_ = 0 ∧
    (Cpu.run_cycle decode_execute ei_pending_cpu).ime = false ∧
    (Cpu.run_cycle decode_execute ei_pending_cpu).m = 5 ∧
    Cpu.run_cycle decode_execute ei_pending_cpu =
      Cpu.run_cycle (fun c => c) ei_pending_cpu := by
  have key : ∀ dec : Cpu → Cpu,
      Cpu.run_cycle dec ei_pending_cpu = Cpu.run_cycle (fun c => c) ei_pending_cpu :=
    fun dec => rfl
  refine ⟨rfl, rfl, ?_, ?_, ?_, ?_, key decode_execute⟩ <;>
    rw [key decode_execute] <;> decide

end Rustyboy
